import Mathlib

/-!
# FWU metadata loader (plat/arm/common/arm_fwu_metadata.c)

A shallow embedding of the Arm platform firmware-update metadata loader:

* `g_fwu_metadata` is the object representation (the bytes) of the static
  `struct fwu_metadata`; the C code itself views it that way, both when
  `io_read` fills it and when `arm_fwu_metadata_crc_check` walks it through an
  `unsigned char *`.
* the storage layer (`arm_set_image_source`, `plat_get_image_source`,
  `io_open`, `io_read`, `io_close`, `io_dev_close`) is external: the outcome of
  each call is a field of `Env`, and every call made is recorded in a trace.
* `NR_OF_FW_BANKS`, `NR_OF_IMAGES_IN_FW_BANK` and `hw_crc32` come from headers
  outside this translation unit and are parameters (`Platform`).
-/

namespace ArmFwuMetadata

/-! ## Parameters of the translation unit -/

/-- Build-time constants and the checksum primitive used by the file.
`NR_OF_FW_BANKS` and `NR_OF_IMAGES_IN_FW_BANK` size the two fixed arrays of the
record; `hw_crc32 crc buf` is the external `hw_crc32(crc, buf, size)` applied to
the `size` bytes `buf`. -/
structure Platform where
  NR_OF_FW_BANKS : Nat
  NR_OF_IMAGES_IN_FW_BANK : Nat
  hw_crc32 : Nat → List Nat → Nat

/-! ## Layout of `struct fwu_metadata`

The structure is declared in `plat/common/fwu_metadata.h`, which is not among
the sources. The spec gives its fields in order (checksum, active index, previous
active index, image entries holding one sub-record per bank) and defers the
byte layout to the external firmware-update metadata specification that
`arm_fwu_metadata.h` cites: packed, little-endian, with a 32-bit `version` word
after the checksum and 16-byte identifiers in the entries. No function of this
file reads `version` or the identifiers; nothing proved below depends on their
sizes.
-/

/-- Modelled from the spec: `sizeof(uint32_t)`, the size of the `crc_32` field
of `struct fwu_metadata` (the declaring header `plat/common/fwu_metadata.h` is
not among the sources; the spec calls the field a 32-bit integrity value). -/
def sizeof_crc_32 : Nat := 4

/-- Modelled from the spec: `sizeof(struct image_bank_info)` of the absent
header `plat/common/fwu_metadata.h`. The spec fixes the record as a packed,
fixed-layout structure following the external firmware-update metadata
specification cited by `arm_fwu_metadata.h`: a 16-byte image identifier, the
32-bit `accepted` word and a 32-bit reserved word. -/
def sizeof_image_bank_info : Nat := 24

/-- Modelled from the spec: byte offset of `accepted` inside
`struct image_bank_info` (after the 16-byte image identifier). -/
def offsetof_accepted : Nat := 16

/-- Modelled from the spec: byte offset of the array `img_bank_info` inside
`struct image_entry` (after the image-type and location identifiers, 16 bytes
each). -/
def offsetof_img_bank_info : Nat := 32

/-- Modelled from the spec: `sizeof(struct image_entry)`: two identifiers and
one `struct image_bank_info` per bank. -/
def sizeof_image_entry (P : Platform) : Nat :=
  offsetof_img_bank_info + P.NR_OF_FW_BANKS * sizeof_image_bank_info

/-- Modelled from the spec: byte offset of the array `img_entry` inside
`struct fwu_metadata` (after `crc_32`, `version`, `active_index` and
`previous_active_index`, 32 bits each). -/
def offsetof_img_entry : Nat := 16

/-- Modelled from the spec: `sizeof(struct fwu_metadata)`: the four leading
words and one `struct image_entry` per image of a bank. -/
def sizeof_fwu_metadata (P : Platform) : Nat :=
  offsetof_img_entry + P.NR_OF_IMAGES_IN_FW_BANK * sizeof_image_entry P

/-- The value of a `uint32_t` stored little-endian at byte offset `off` of the
object `b`. Every stored byte is an `unsigned char`, hence the `% 256`. -/
def le32 (b : List Nat) (off : Nat) : Nat :=
  b.getD off 0 % 256 + 256 * (b.getD (off + 1) 0 % 256)
    + 65536 * (b.getD (off + 2) 0 % 256) + 16777216 * (b.getD (off + 3) 0 % 256)

/-- Modelled from the spec: field `crc_32` of a `struct fwu_metadata` object,
the first word of the record (the declaring header is not among the
sources). -/
def crc_32 (g : List Nat) : Nat := le32 g 0

/-- Modelled from the spec: field `version` of a `struct fwu_metadata` object,
the second word. -/
def version (g : List Nat) : Nat := le32 g 4

/-- Modelled from the spec: field `active_index` of a `struct fwu_metadata`
object, the third word. -/
def active_index (g : List Nat) : Nat := le32 g 8

/-- Modelled from the spec: field `previous_active_index` of a
`struct fwu_metadata` object, the fourth word. -/
def previous_active_index (g : List Nat) : Nat := le32 g 12

/-- The array element `g.img_entry[i]`, copied out as a `struct image_entry`
object; `none` when `i` is outside the array of `NR_OF_IMAGES_IN_FW_BANK`
entries (undefined behaviour in C). -/
def img_entry (P : Platform) (g : List Nat) (i : Nat) : Option (List Nat) :=
  if i < P.NR_OF_IMAGES_IN_FW_BANK then
    some ((g.drop (offsetof_img_entry + i * sizeof_image_entry P)).take (sizeof_image_entry P))
  else none

/-- The array element `entry.img_bank_info[b]`, copied out as a
`struct image_bank_info` object; `none` when `b` is outside the array of
`NR_OF_FW_BANKS` elements (undefined behaviour in C). -/
def img_bank_info (P : Platform) (entry : List Nat) (b : Nat) : Option (List Nat) :=
  if b < P.NR_OF_FW_BANKS then
    some ((entry.drop (offsetof_img_bank_info + b * sizeof_image_bank_info)).take
      sizeof_image_bank_info)
  else none

/-- Field `accepted` of a `struct image_bank_info` object. -/
def accepted (img_info : List Nat) : Nat := le32 img_info offsetof_accepted

/-- The word `g.img_entry[i].img_bank_info[b].accepted`, when both indices are
inside their arrays. -/
def accepted_at (P : Platform) (g : List Nat) (i b : Nat) : Option Nat :=
  match img_entry P g i with
  | none => none
  | some entry =>
    match img_bank_info P entry b with
    | none => none
    | some img_info => some (accepted img_info)

/-- The zero-initialised static `g_fwu_metadata` before any load. -/
def g_fwu_metadata_init (P : Platform) : List Nat :=
  List.replicate (sizeof_fwu_metadata P) 0

/-! ## Query functions -/

/-- `arm_get_fw_bank_active_idx`: returns `g_fwu_metadata.active_index`. -/
def arm_get_fw_bank_active_idx (g : List Nat) : Nat := active_index g

/-- The `for` loop of `arm_is_trial_run_state`, entered with loop variable `i`
and `n` iterations left before `i` reaches `NR_OF_IMAGES_IN_FW_BANK`.
`some true` is the `break` with `trial_run = true`; `some false` is the loop
running to its end; `none` is an array access outside its bounds. -/
def trial_run_loop (P : Platform) (g : List Nat) : Nat → Nat → Option Bool
  | 0, _ => some false
  | n + 1, i =>
    match img_entry P g i with
    | none => none
    | some entry =>
      match img_bank_info P entry (active_index g) with
      | none => none
      | some img_info =>
        if accepted img_info = 0 then some true
        else trial_run_loop P g n (i + 1)

/-- `arm_is_trial_run_state`: scan the image entries from index 0. -/
def arm_is_trial_run_state (P : Platform) (g : List Nat) : Option Bool :=
  trial_run_loop P g P.NR_OF_IMAGES_IN_FW_BANK 0

/-- The scan of `arm_is_trial_run_state` with the image entries visited in an
arbitrary `order` instead of `0, 1, ..`: the same loop body, the same early
exit. Used to state that the scan order does not matter. -/
def trial_run_scan (P : Platform) (g : List Nat) : List Nat → Option Bool
  | [] => some false
  | i :: rest =>
    match img_entry P g i with
    | none => none
    | some entry =>
      match img_bank_info P entry (active_index g) with
      | none => none
      | some img_info =>
        if accepted img_info = 0 then some true
        else trial_run_scan P g rest

/-! ## Validation -/

/-- The byte range handed to `hw_crc32` by `arm_fwu_metadata_crc_check`:
it starts at `metadata + sizeof(g_fwu_metadata.crc_32)` and is
`sizeof(g_fwu_metadata) - sizeof(g_fwu_metadata.crc_32)` bytes long. -/
def crc_range (P : Platform) (g : List Nat) : List Nat :=
  (g.drop sizeof_crc_32).take (sizeof_fwu_metadata P - sizeof_crc_32)

/-- `arm_fwu_metadata_crc_check`: `-1` on mismatch, otherwise `0`. -/
def arm_fwu_metadata_crc_check (P : Platform) (g : List Nat) : Int :=
  let calc_crc := P.hw_crc32 0 (crc_range P g)
  if crc_32 g ≠ calc_crc % 2 ^ 32 then -1 else 0

/-- `arm_fwu_metadata_sanity_check`: `-1` on error, otherwise `0`. -/
def arm_fwu_metadata_sanity_check (P : Platform) (g : List Nat) : Int :=
  if active_index g ≥ P.NR_OF_FW_BANKS ∨ previous_active_index g ≥ P.NR_OF_FW_BANKS then -1
  else 0

/-! ## The storage layer and the loader -/

/-- Outcome of the external storage calls made by one run of
`arm_load_fwu_metadata`. -/
structure Env where
  /-- return value of `arm_set_image_source(FWU_METADATA_IMAGE_ID, part_name)` -/
  arm_set_image_source : String → Int
  /-- return value of `plat_get_image_source` -/
  plat_get_image_source : Int
  /-- device handle stored by a successful `plat_get_image_source` -/
  dev_handle : Nat
  /-- image spec stored by a successful `plat_get_image_source` -/
  image_spec : Nat
  /-- return value of `io_open` -/
  io_open : Int
  /-- image handle stored by a successful `io_open` -/
  image_handle : Nat
  /-- return value of `io_read` -/
  io_read : Int
  /-- bytes `io_read` stores at the start of the destination buffer; their
  number is what it reports through `bytes_read` -/
  data : List Nat

/-- The `WARN` diagnostics of `arm_load_fwu_metadata`, one constructor per
call site, in source order. -/
inductive Warning where
  /-- "Failed to set reference to image id=%u (%i)" -/
  | set_reference (result : Int)
  /-- "Failed to obtain reference to image id=%u (%i)" -/
  | obtain_reference (result : Int)
  /-- "Failed to load image id id=%u (%i)" -/
  | load_image (result : Int)
  /-- "Read bytes (%lu) instead of expected (%lu) bytes" -/
  | short_read (bytes_read expected : Nat)
  /-- "Failed to read image id=%u (%i)" -/
  | read_failed (result : Int)
  /-- "Sanity check failed on FWU metadata" -/
  | sanity_check_failed
  /-- "CRC check failed on FWU metadata" -/
  | crc_check_failed
  deriving DecidableEq, Repr

/-- What `arm_load_fwu_metadata` does that is visible outside it: calls into
the storage layer, the two checks it runs, and diagnostics. A handle argument is
`none` when the local variable passed was never assigned. -/
inductive Event where
  | arm_set_image_source (part_name : String)
  | plat_get_image_source
  | io_open (dev_handle image_spec : Option Nat)
  | io_read (image_handle : Option Nat) (length : Nat)
  | sanity_check
  | crc_check
  | io_close (image_handle : Option Nat)
  | io_dev_close (dev_handle : Option Nat)
  | WARN (w : Warning)
  deriving DecidableEq, Repr

/-- Result of one run of `arm_load_fwu_metadata`: the value returned, the
contents of `g_fwu_metadata` afterwards, and the events in program order. -/
structure Outcome where
  result : Int
  g_fwu_metadata : List Nat
  trace : List Event

/-- `io_read(image_handle, buffer, length, &bytes_read)`: the storage layer
stores at most `length` bytes at the start of `buffer` and reports how many.
Returns the return value, the buffer afterwards and `bytes_read`. -/
def io_read (E : Env) (buffer : List Nat) (length : Nat) : Int × List Nat × Nat :=
  let d := E.data.take length
  (E.io_read, d ++ buffer.drop d.length, d.length)

/-- The statements of `arm_load_fwu_metadata` after a full read, from the
sanity check to the `exit` label. `tr` is the trace so far. -/
def load_validate (P : Platform) (g : List Nat) (dev_handle image_handle : Option Nat)
    (tr : List Event) : Outcome :=
  let exit := [Event.io_close image_handle, Event.io_dev_close dev_handle]
  let result := arm_fwu_metadata_sanity_check P g
  if result ≠ 0 then
    ⟨result, g, tr ++ [Event.sanity_check, Event.WARN Warning.sanity_check_failed] ++ exit⟩
  else
    let result := arm_fwu_metadata_crc_check P g
    if result ≠ 0 then
      ⟨result, g, tr ++ [Event.sanity_check, Event.crc_check,
        Event.WARN Warning.crc_check_failed] ++ exit⟩
    else
      ⟨result, g, tr ++ [Event.sanity_check, Event.crc_check] ++ exit⟩

/-- `arm_load_fwu_metadata(part_name)`, run in environment `E` with
`g_fwu_metadata = g` on entry. -/
def arm_load_fwu_metadata (P : Platform) (E : Env) (g : List Nat) (part_name : String) :
    Outcome :=
  let result := E.arm_set_image_source part_name
  if result ≠ 0 then
    ⟨-1, g, [Event.arm_set_image_source part_name, Event.WARN (Warning.set_reference result)]⟩
  else
    let result := E.plat_get_image_source
    if result ≠ 0 then
      ⟨result, g, [Event.arm_set_image_source part_name, Event.plat_get_image_source,
        Event.WARN (Warning.obtain_reference result)]⟩
    else
      let dev_handle := some E.dev_handle
      let image_spec := some E.image_spec
      let result := E.io_open
      if result ≠ 0 then
        ⟨result, g, [Event.arm_set_image_source part_name, Event.plat_get_image_source,
          Event.io_open dev_handle image_spec, Event.WARN (Warning.load_image result)]⟩
      else
        let image_handle := some E.image_handle
        let tr := [Event.arm_set_image_source part_name, Event.plat_get_image_source,
          Event.io_open dev_handle image_spec,
          Event.io_read image_handle (sizeof_fwu_metadata P)]
        let exit := [Event.io_close image_handle, Event.io_dev_close dev_handle]
        match io_read E g (sizeof_fwu_metadata P) with
        | (result, g, bytes_read) =>
          if result ≠ 0 ∨ sizeof_fwu_metadata P ≠ bytes_read then
            if result = 0 then
              ⟨-1, g, tr ++ [Event.WARN
                (Warning.short_read bytes_read (sizeof_fwu_metadata P))] ++ exit⟩
            else
              ⟨result, g, tr ++ [Event.WARN (Warning.read_failed result)] ++ exit⟩
          else
            load_validate P g dev_handle image_handle tr

/-- The diagnostics logged by a run, in order. -/
def warnings (tr : List Event) : List Warning :=
  tr.filterMap fun e =>
    match e with
    | Event.WARN w => some w
    | _ => none

/-- The calls of a run that release a handle (`io_close`, `io_dev_close`), in
order. -/
def closes (tr : List Event) : List Event :=
  tr.filter fun e =>
    match e with
    | Event.io_close _ => true
    | Event.io_dev_close _ => true
    | _ => false

/-- The contents of `g_fwu_metadata` when `io_read` returns. -/
abbrev read_buffer (P : Platform) (E : Env) (g : List Nat) : List Nat :=
  (io_read E g (sizeof_fwu_metadata P)).2.1

/-- The value `io_read` leaves in `bytes_read`. -/
abbrev read_count (P : Platform) (E : Env) (g : List Nat) : Nat :=
  (io_read E g (sizeof_fwu_metadata P)).2.2

/-- The three calls before `io_read` all return 0. -/
def opened (E : Env) (part_name : String) : Prop :=
  E.arm_set_image_source part_name = 0 ∧ E.plat_get_image_source = 0 ∧ E.io_open = 0

instance (E : Env) (part_name : String) : Decidable (opened E part_name) := by
  unfold opened; infer_instance

/-! ## A concrete checksum and concrete records

Everything above is parametric in the platform. The definitions below build
concrete platforms, records and environments on which the model is evaluated.
-/

/-- One bit step of the reflected CRC-32 (polynomial `0xEDB88320`). -/
def crc32_bit (c : Nat) : Nat := if c % 2 = 1 then (c / 2) ^^^ 0xEDB88320 else c / 2

/-- One byte step of CRC-32, as the Armv8 `CRC32B` instruction computes it. -/
def crc32_byte (c b : Nat) : Nat := crc32_bit^[8] (c ^^^ (b % 256))

/-- CRC-32 of `buf` continued from `crc`, with the customary inversion of the
accumulator before and after: a checksum primitive of the shape of `hw_crc32`,
used to instantiate `Platform.hw_crc32` on concrete inputs. -/
def crc32 (crc : Nat) (buf : List Nat) : Nat :=
  (buf.foldl crc32_byte ((crc % 2 ^ 32) ^^^ 0xFFFFFFFF)) ^^^ 0xFFFFFFFF

/-- The four bytes of a `uint32_t`, least significant first. -/
def put32 (v : Nat) : List Nat :=
  [v % 256, v / 256 % 256, v / 65536 % 256, v / 16777216 % 256]

/-- A `struct image_bank_info` object with a zero identifier and the given
`accepted` word. -/
def mk_image_bank_info (acc : Nat) : List Nat :=
  List.replicate 16 0 ++ put32 acc ++ put32 0

/-- A `struct image_entry` object with zero identifiers, one
`struct image_bank_info` per element of `banks`. -/
def mk_image_entry (banks : List Nat) : List Nat :=
  List.replicate 32 0 ++ (banks.map mk_image_bank_info).flatten

/-- Everything of a `struct fwu_metadata` object after its `crc_32` field. -/
def mk_payload (ver act prev : Nat) (entries : List (List Nat)) : List Nat :=
  put32 ver ++ put32 act ++ put32 prev ++ (entries.map mk_image_entry).flatten

/-- The record made of `payload` preceded by its checksum. -/
def with_crc (P : Platform) (payload : List Nat) : List Nat :=
  put32 (P.hw_crc32 0 payload % 2 ^ 32) ++ payload

/-- The record `g` with bit `k` (counted from the least significant bit of byte
0) inverted. -/
def flip_bit (g : List Nat) (k : Nat) : List Nat :=
  g.set (k / 8) (g.getD (k / 8) 0 ^^^ 2 ^ (k % 8))

/-- Two banks, three images per bank, CRC-32 checksum. -/
def plat_2_3 : Platform := ⟨2, 3, crc32⟩

/-- A storage layer on which every call succeeds and `io_read` delivers
`data`. -/
def env_ok (data : List Nat) : Env := ⟨fun _ => 0, 0, 1, 2, 0, 3, 0, data⟩

/-- A valid record for `plat_2_3`: bank 0 active, every image of bank 0
accepted. -/
def rec_accepted : List Nat :=
  with_crc plat_2_3 (mk_payload 1 0 1 [[1, 0], [1, 1], [1, 0]])

/-- A valid record for `plat_2_3`: bank 0 active, the second image of bank 0
not accepted; it differs from `rec_accepted` in that one word (and in the
checksum). -/
def rec_trial : List Nat :=
  with_crc plat_2_3 (mk_payload 1 0 1 [[1, 0], [0, 1], [1, 0]])

/-- A record for `plat_2_3` with a correct checksum whose `active_index` is
`NR_OF_FW_BANKS`. -/
def rec_bad_index : List Nat :=
  with_crc plat_2_3 (mk_payload 1 2 0 [[0, 0], [0, 0], [0, 0]])

/-- The first twelve bytes of a record: `crc_32 = 0`, `version = 7`,
`active_index = 1`. -/
def short_data : List Nat := put32 0 ++ put32 7 ++ put32 1

/-- A storage layer whose `plat_get_image_source` fails with -2 (`-ENOENT`). -/
def env_get_fails : Env := ⟨fun _ => 0, -2, 0, 0, 0, 0, 0, []⟩

/-- A storage layer whose `io_open` fails with -5 (`-EIO`). -/
def env_open_fails : Env := ⟨fun _ => 0, 0, 1, 2, -5, 0, 0, []⟩

/-- A storage layer whose `io_read` fails with -1 and stores nothing. -/
def env_read_fails : Env := ⟨fun _ => 0, 0, 1, 2, 0, 3, -1, []⟩

/-! ## Basic facts -/

theorem sanity_check_eq_zero_iff (P : Platform) (g : List Nat) :
    arm_fwu_metadata_sanity_check P g = 0 ↔
      active_index g < P.NR_OF_FW_BANKS ∧ previous_active_index g < P.NR_OF_FW_BANKS := by
  unfold arm_fwu_metadata_sanity_check
  split
  · rename_i h
    constructor
    · intro h0; simp at h0
    · intro ⟨h1, h2⟩; omega
  · rename_i h
    constructor
    · intro _; omega
    · intro _; rfl

theorem sanity_check_cases (P : Platform) (g : List Nat) :
    arm_fwu_metadata_sanity_check P g = 0 ∨ arm_fwu_metadata_sanity_check P g = -1 := by
  unfold arm_fwu_metadata_sanity_check
  split <;> simp

theorem crc_check_eq_zero_iff (P : Platform) (g : List Nat) :
    arm_fwu_metadata_crc_check P g = 0 ↔ crc_32 g = P.hw_crc32 0 (crc_range P g) % 2 ^ 32 := by
  unfold arm_fwu_metadata_crc_check
  simp only []
  split
  · rename_i h
    constructor
    · intro h0; simp at h0
    · intro h1; exact absurd h1 h
  · rename_i h
    constructor
    · intro _; exact not_not.mp h
    · intro _; rfl

theorem crc_check_cases (P : Platform) (g : List Nat) :
    arm_fwu_metadata_crc_check P g = 0 ∨ arm_fwu_metadata_crc_check P g = -1 := by
  unfold arm_fwu_metadata_crc_check
  simp only []
  split <;> simp

/-- Once the three opening calls succeed, the run is the `io_read` step
followed by validation or one of the two read-failure exits. -/
theorem load_of_opened (P : Platform) (E : Env) (g : List Nat) (part_name : String)
    (h : opened E part_name) :
    arm_load_fwu_metadata P E g part_name =
      (let tr := [Event.arm_set_image_source part_name, Event.plat_get_image_source,
          Event.io_open (some E.dev_handle) (some E.image_spec),
          Event.io_read (some E.image_handle) (sizeof_fwu_metadata P)]
       let exit := [Event.io_close (some E.image_handle), Event.io_dev_close (some E.dev_handle)]
       if E.io_read ≠ 0 ∨ sizeof_fwu_metadata P ≠ read_count P E g then
         if E.io_read = 0 then
           ⟨-1, read_buffer P E g, tr ++ [Event.WARN
             (Warning.short_read (read_count P E g) (sizeof_fwu_metadata P))] ++ exit⟩
         else
           ⟨E.io_read, read_buffer P E g, tr ++ [Event.WARN (Warning.read_failed E.io_read)]
             ++ exit⟩
       else
         load_validate P (read_buffer P E g) (some E.dev_handle) (some E.image_handle) tr) := by
  obtain ⟨h1, h2, h3⟩ := h
  simp only [arm_load_fwu_metadata, h1, h2, h3, io_read, read_buffer, read_count, ne_eq,
    not_true_eq_false, if_false]

/-! ## The trial-run scan -/

theorem trial_run_loop_eq_scan (P : Platform) (g : List Nat) (n i : Nat) :
    trial_run_loop P g n i = trial_run_scan P g (List.range' i n) := by
  induction n generalizing i with
  | zero => rfl
  | succ n ih =>
    simp only [trial_run_loop, List.range'_succ, trial_run_scan, ih]

theorem accepted_at_of_lt (P : Platform) (g : List Nat) (i b : Nat)
    (hi : i < P.NR_OF_IMAGES_IN_FW_BANK) (hb : b < P.NR_OF_FW_BANKS) :
    ∃ v, accepted_at P g i b = some v := by
  simp [accepted_at, img_entry, img_bank_info, hi, hb]

/-- With the active index inside the bank array, a scan over in-range image
indices returns, and returns whether some visited entry is not accepted. -/
theorem trial_run_scan_eq_any (P : Platform) (g : List Nat)
    (h : active_index g < P.NR_OF_FW_BANKS) (order : List Nat)
    (ho : ∀ i ∈ order, i < P.NR_OF_IMAGES_IN_FW_BANK) :
    trial_run_scan P g order =
      some (order.any fun i => accepted_at P g i (active_index g) == some 0) := by
  induction order with
  | nil => rfl
  | cons i rest ih =>
    have hi : i < P.NR_OF_IMAGES_IN_FW_BANK := ho i (List.mem_cons_self i rest)
    have hrest : ∀ j ∈ rest, j < P.NR_OF_IMAGES_IN_FW_BANK :=
      fun j hj => ho j (List.mem_cons_of_mem i hj)
    simp only [trial_run_scan, img_entry, hi, if_true, img_bank_info, h, accepted_at,
      List.any_cons, ih hrest]
    split
    · rename_i h0
      simp [h0]
    · rename_i h0
      simp [h0]

theorem trial_run_state_eq_any (P : Platform) (g : List Nat)
    (h : active_index g < P.NR_OF_FW_BANKS) :
    arm_is_trial_run_state P g =
      some ((List.range P.NR_OF_IMAGES_IN_FW_BANK).any fun i =>
        accepted_at P g i (active_index g) == some 0) := by
  unfold arm_is_trial_run_state
  rw [trial_run_loop_eq_scan, ← List.range_eq_range']
  exact trial_run_scan_eq_any P g h _ (fun i hi => List.mem_range.mp hi)

/-! ## Reading and validating -/

theorem sizeof_fwu_metadata_ge (P : Platform) : 16 ≤ sizeof_fwu_metadata P := by
  unfold sizeof_fwu_metadata offsetof_img_entry
  omega

/-- On an object of the size of the record, the range handed to `hw_crc32` is
everything after the first `sizeof(crc_32)` bytes. -/
theorem crc_range_eq_drop (P : Platform) (g : List Nat)
    (hlen : g.length = sizeof_fwu_metadata P) : crc_range P g = g.drop sizeof_crc_32 := by
  unfold crc_range
  apply List.take_of_length_le
  simp [hlen]

/-- A read that delivers a whole record replaces the whole cached record. -/
theorem read_buffer_of_full (P : Platform) (E : Env) (g : List Nat)
    (hdata : E.data.length = sizeof_fwu_metadata P)
    (hg : g.length = sizeof_fwu_metadata P) :
    read_buffer P E g = E.data ∧ read_count P E g = sizeof_fwu_metadata P := by
  unfold read_buffer read_count io_read
  simp only []
  rw [List.take_of_length_le (le_of_eq hdata), hdata, List.drop_of_length_le (le_of_eq hg)]
  simp

theorem load_validate_result (P : Platform) (g : List Nat) (d i : Option Nat)
    (tr : List Event) :
    (load_validate P g d i tr).result =
      if arm_fwu_metadata_sanity_check P g ≠ 0 then arm_fwu_metadata_sanity_check P g
      else arm_fwu_metadata_crc_check P g := by
  unfold load_validate
  simp only []
  split
  · rfl
  · split <;> rfl

theorem load_validate_buffer (P : Platform) (g : List Nat) (d i : Option Nat)
    (tr : List Event) : (load_validate P g d i tr).g_fwu_metadata = g := by
  unfold load_validate
  simp only []
  split
  · rfl
  · split <;> rfl

/-- Validation yields 0 exactly when both checks pass, and -1 otherwise. -/
theorem load_validate_result_zero_iff (P : Platform) (g : List Nat) (d i : Option Nat)
    (tr : List Event) :
    (load_validate P g d i tr).result = 0 ↔
      arm_fwu_metadata_sanity_check P g = 0 ∧ arm_fwu_metadata_crc_check P g = 0 := by
  rw [load_validate_result]
  split
  · rename_i h
    constructor
    · intro h0; exact absurd h0 h
    · intro h0; exact absurd h0.1 h
  · rename_i h
    have h0 : arm_fwu_metadata_sanity_check P g = 0 := not_not.mp h
    simp [h0]

theorem load_validate_result_cases (P : Platform) (g : List Nat) (d i : Option Nat)
    (tr : List Event) :
    (load_validate P g d i tr).result = 0 ∨ (load_validate P g d i tr).result = -1 := by
  rw [load_validate_result]
  split
  · rename_i h
    rcases sanity_check_cases P g with h0 | h0
    · exact absurd h0 h
    · exact Or.inr h0
  · exact crc_check_cases P g

/-- If one of the three opening calls fails, the run returns a non-zero value
right there and `g_fwu_metadata` is not touched. -/
theorem load_of_not_opened (P : Platform) (E : Env) (g : List Nat) (part_name : String)
    (h : ¬ opened E part_name) :
    (arm_load_fwu_metadata P E g part_name).result ≠ 0 ∧
      (arm_load_fwu_metadata P E g part_name).g_fwu_metadata = g := by
  unfold opened at h
  unfold arm_load_fwu_metadata
  simp only []
  split
  · simp
  · split
    · rename_i h2
      exact ⟨h2, rfl⟩
    · split
      · rename_i h3
        exact ⟨h3, rfl⟩
      · rename_i h1 h2 h3
        exact absurd ⟨not_not.mp h1, not_not.mp h2, not_not.mp h3⟩ h

/-- The run returns 0 exactly when every storage call returns 0, the read is
complete and both checks pass on the bytes read. -/
theorem load_result_eq_zero (P : Platform) (E : Env) (g : List Nat) (part_name : String) :
    (arm_load_fwu_metadata P E g part_name).result = 0 ↔
      opened E part_name ∧ E.io_read = 0 ∧ read_count P E g = sizeof_fwu_metadata P ∧
      arm_fwu_metadata_sanity_check P (read_buffer P E g) = 0 ∧
      arm_fwu_metadata_crc_check P (read_buffer P E g) = 0 := by
  by_cases ho : opened E part_name
  · rw [load_of_opened P E g part_name ho]
    simp only []
    split
    · rename_i hfail
      split
      · rename_i hr
        constructor
        · intro h0; simp at h0
        · intro ⟨_, _, hc, _⟩
          rcases hfail with hf | hf
          · exact absurd hr hf
          · exact absurd hc.symm hf
      · rename_i hr
        constructor
        · intro h0; exact absurd h0 hr
        · intro ⟨_, h0, _⟩; exact absurd h0 hr
    · rename_i hfail
      rw [load_validate_result_zero_iff]
      have h1 : E.io_read = 0 := by
        by_contra hne; exact hfail (Or.inl hne)
      have h2 : read_count P E g = sizeof_fwu_metadata P := by
        by_contra hne; exact hfail (Or.inr (fun e => hne e.symm))
      constructor
      · intro ⟨hs, hc⟩; exact ⟨ho, h1, h2, hs, hc⟩
      · intro ⟨_, _, _, hs, hc⟩; exact ⟨hs, hc⟩
  · constructor
    · intro h0; exact absurd h0 (load_of_not_opened P E g part_name ho).1
    · intro ⟨h0, _⟩; exact absurd h0 ho

/-- The trace of a run that reads a whole record and rejects it in the sanity
check. -/
theorem load_trace_of_sanity_failure (P : Platform) (E : Env) (g : List Nat)
    (part_name : String) (ho : opened E part_name) (hr : E.io_read = 0)
    (hc : read_count P E g = sizeof_fwu_metadata P)
    (hs : arm_fwu_metadata_sanity_check P (read_buffer P E g) ≠ 0) :
    (arm_load_fwu_metadata P E g part_name).trace =
      [Event.arm_set_image_source part_name, Event.plat_get_image_source,
        Event.io_open (some E.dev_handle) (some E.image_spec),
        Event.io_read (some E.image_handle) (sizeof_fwu_metadata P),
        Event.sanity_check, Event.WARN Warning.sanity_check_failed,
        Event.io_close (some E.image_handle), Event.io_dev_close (some E.dev_handle)] := by
  rw [load_of_opened P E g part_name ho]
  simp only [hr, hc, ne_eq, not_true_eq_false, or_self, if_false, load_validate, hs,
    not_false_eq_true, if_true]
  rfl

/-- The trace of a run that reads a whole record, passes the sanity check and
rejects the record in the CRC check. -/
theorem load_trace_of_crc_failure (P : Platform) (E : Env) (g : List Nat)
    (part_name : String) (ho : opened E part_name) (hr : E.io_read = 0)
    (hc : read_count P E g = sizeof_fwu_metadata P)
    (hs : arm_fwu_metadata_sanity_check P (read_buffer P E g) = 0)
    (hcrc : arm_fwu_metadata_crc_check P (read_buffer P E g) ≠ 0) :
    (arm_load_fwu_metadata P E g part_name).trace =
      [Event.arm_set_image_source part_name, Event.plat_get_image_source,
        Event.io_open (some E.dev_handle) (some E.image_spec),
        Event.io_read (some E.image_handle) (sizeof_fwu_metadata P),
        Event.sanity_check, Event.crc_check, Event.WARN Warning.crc_check_failed,
        Event.io_close (some E.image_handle), Event.io_dev_close (some E.dev_handle)] := by
  rw [load_of_opened P E g part_name ho]
  simp only [hr, hc, ne_eq, not_true_eq_false, or_self, if_false, load_validate, hs, hcrc,
    not_false_eq_true, if_true]
  rfl

/-- After the three opening calls, whatever `io_read` left in the buffer is what
`g_fwu_metadata` holds when the run returns. -/
theorem load_buffer_of_opened (P : Platform) (E : Env) (g : List Nat) (part_name : String)
    (ho : opened E part_name) :
    (arm_load_fwu_metadata P E g part_name).g_fwu_metadata = read_buffer P E g := by
  rw [load_of_opened P E g part_name ho]
  simp only []
  split
  · split <;> rfl
  · exact load_validate_buffer _ _ _ _ _

/-- A run that reads a whole record and fails the sanity check returns -1. -/
theorem load_result_of_sanity_failure (P : Platform) (E : Env) (g : List Nat)
    (part_name : String) (ho : opened E part_name) (hr : E.io_read = 0)
    (hc : read_count P E g = sizeof_fwu_metadata P)
    (hs : arm_fwu_metadata_sanity_check P (read_buffer P E g) ≠ 0) :
    (arm_load_fwu_metadata P E g part_name).result = -1 := by
  rw [load_of_opened P E g part_name ho]
  simp only [hr, hc, ne_eq, not_true_eq_false, or_self, if_false]
  rw [load_validate_result, if_pos hs]
  rcases sanity_check_cases P (read_buffer P E g) with h0 | h0
  · exact absurd h0 hs
  · exact h0

/-- A run that reads a whole record, passes the sanity check and fails the CRC
check returns -1. -/
theorem load_result_of_crc_failure (P : Platform) (E : Env) (g : List Nat)
    (part_name : String) (ho : opened E part_name) (hr : E.io_read = 0)
    (hc : read_count P E g = sizeof_fwu_metadata P)
    (hs : arm_fwu_metadata_sanity_check P (read_buffer P E g) = 0)
    (hcrc : arm_fwu_metadata_crc_check P (read_buffer P E g) ≠ 0) :
    (arm_load_fwu_metadata P E g part_name).result = -1 := by
  rw [load_of_opened P E g part_name ho]
  simp only [hr, hc, ne_eq, not_true_eq_false, or_self, if_false]
  rw [load_validate_result, if_neg (not_not.mpr hs)]
  rcases crc_check_cases P (read_buffer P E g) with h0 | h0
  · exact absurd h0 hcrc
  · exact h0

/-- A run whose `io_read` returns 0 with a byte count other than the record size
takes the short-read exit: -1, no check run, both handles closed. -/
theorem load_of_short_read (P : Platform) (E : Env) (g : List Nat)
    (part_name : String) (ho : opened E part_name) (hr : E.io_read = 0)
    (hc : read_count P E g ≠ sizeof_fwu_metadata P) :
    (arm_load_fwu_metadata P E g part_name).result = -1 ∧
    (arm_load_fwu_metadata P E g part_name).trace =
      [Event.arm_set_image_source part_name, Event.plat_get_image_source,
        Event.io_open (some E.dev_handle) (some E.image_spec),
        Event.io_read (some E.image_handle) (sizeof_fwu_metadata P),
        Event.WARN (Warning.short_read (read_count P E g) (sizeof_fwu_metadata P)),
        Event.io_close (some E.image_handle), Event.io_dev_close (some E.dev_handle)] := by
  rw [load_of_opened P E g part_name ho]
  have hc2 : sizeof_fwu_metadata P ≠ read_count P E g := fun e => hc e.symm
  simp only [hr, hc2, ne_eq, not_true_eq_false, not_false_eq_true, false_or, if_true]
  exact ⟨trivial, rfl⟩

/-- A run whose `io_read` returns a non-zero value returns that value through
the read-failure exit. -/
theorem load_of_read_failure (P : Platform) (E : Env) (g : List Nat)
    (part_name : String) (ho : opened E part_name) (hr : E.io_read ≠ 0) :
    (arm_load_fwu_metadata P E g part_name).result = E.io_read ∧
    (arm_load_fwu_metadata P E g part_name).trace =
      [Event.arm_set_image_source part_name, Event.plat_get_image_source,
        Event.io_open (some E.dev_handle) (some E.image_spec),
        Event.io_read (some E.image_handle) (sizeof_fwu_metadata P),
        Event.WARN (Warning.read_failed E.io_read),
        Event.io_close (some E.image_handle), Event.io_dev_close (some E.dev_handle)] := by
  rw [load_of_opened P E g part_name ho]
  simp only [hr, ne_eq, not_false_eq_true, true_or, if_true, if_false]
  exact ⟨trivial, rfl⟩

/-- A valid record delivered in full is accepted and becomes the cached
record. -/
theorem load_of_valid (P : Platform) (E : Env) (g : List Nat) (part_name : String)
    (hg : g.length = sizeof_fwu_metadata P) (ho : opened E part_name) (hread : E.io_read = 0)
    (hlen : E.data.length = sizeof_fwu_metadata P)
    (hs : arm_fwu_metadata_sanity_check P E.data = 0)
    (hcrc : arm_fwu_metadata_crc_check P E.data = 0) :
    (arm_load_fwu_metadata P E g part_name).result = 0 ∧
    (arm_load_fwu_metadata P E g part_name).g_fwu_metadata = E.data := by
  obtain ⟨hb, hc⟩ := read_buffer_of_full P E g hlen hg
  have hbuf := load_buffer_of_opened P E g part_name ho
  rw [hb] at hbuf
  refine ⟨?_, hbuf⟩
  rw [load_result_eq_zero, hb]
  exact ⟨ho, hread, hc, hs, hcrc⟩

/-- A record delivered in full that fails validation is rejected with -1, and
is nevertheless what `g_fwu_metadata` holds afterwards. -/
theorem load_of_invalid (P : Platform) (E : Env) (g : List Nat) (part_name : String)
    (hg : g.length = sizeof_fwu_metadata P) (ho : opened E part_name) (hread : E.io_read = 0)
    (hlen : E.data.length = sizeof_fwu_metadata P)
    (hbad : arm_fwu_metadata_sanity_check P E.data ≠ 0 ∨
      arm_fwu_metadata_crc_check P E.data ≠ 0) :
    (arm_load_fwu_metadata P E g part_name).result = -1 ∧
    (arm_load_fwu_metadata P E g part_name).g_fwu_metadata = E.data := by
  obtain ⟨hb, hc⟩ := read_buffer_of_full P E g hlen hg
  have hbuf := load_buffer_of_opened P E g part_name ho
  rw [hb] at hbuf
  refine ⟨?_, hbuf⟩
  by_cases hs : arm_fwu_metadata_sanity_check P E.data = 0
  · rcases hbad with h | h
    · exact absurd hs h
    · exact load_result_of_crc_failure P E g part_name ho hread hc (hb ▸ hs) (hb ▸ h)
  · exact load_result_of_sanity_failure P E g part_name ho hread hc (hb ▸ hs)

/-- The three early exits: the value returned and the diagnostic logged when
one of the opening calls fails. -/
theorem load_of_open_failure (P : Platform) (E : Env) (g : List Nat) (part_name : String) :
    (E.arm_set_image_source part_name ≠ 0 →
      (arm_load_fwu_metadata P E g part_name).result = -1 ∧
      (arm_load_fwu_metadata P E g part_name).trace =
        [Event.arm_set_image_source part_name,
          Event.WARN (Warning.set_reference (E.arm_set_image_source part_name))]) ∧
    (E.arm_set_image_source part_name = 0 → E.plat_get_image_source ≠ 0 →
      (arm_load_fwu_metadata P E g part_name).result = E.plat_get_image_source ∧
      (arm_load_fwu_metadata P E g part_name).trace =
        [Event.arm_set_image_source part_name, Event.plat_get_image_source,
          Event.WARN (Warning.obtain_reference E.plat_get_image_source)]) ∧
    (E.arm_set_image_source part_name = 0 → E.plat_get_image_source = 0 → E.io_open ≠ 0 →
      (arm_load_fwu_metadata P E g part_name).result = E.io_open ∧
      (arm_load_fwu_metadata P E g part_name).trace =
        [Event.arm_set_image_source part_name, Event.plat_get_image_source,
          Event.io_open (some E.dev_handle) (some E.image_spec),
          Event.WARN (Warning.load_image E.io_open)]) := by
  refine ⟨?_, ?_, ?_⟩
  · intro h1
    simp only [arm_load_fwu_metadata, h1, ne_eq, not_false_eq_true, if_true, and_self]
  · intro h1 h2
    simp only [arm_load_fwu_metadata, h1, h2, ne_eq, not_true_eq_false, not_false_eq_true,
      if_true, if_false, and_self]
  · intro h1 h2 h3
    simp only [arm_load_fwu_metadata, h1, h2, h3, ne_eq, not_true_eq_false,
      not_false_eq_true, if_true, if_false, and_self]

/-! ## The shape of a trace -/

/-- The trace of a run that got past `io_open`: the four calls up to `io_read`,
then checks and diagnostics only, then the two closes of the `exit` label. -/
theorem load_trace_of_opened (P : Platform) (E : Env) (g : List Nat) (part_name : String)
    (ho : opened E part_name) :
    ∃ mid : List Event,
      (arm_load_fwu_metadata P E g part_name).trace =
        [Event.arm_set_image_source part_name, Event.plat_get_image_source,
          Event.io_open (some E.dev_handle) (some E.image_spec),
          Event.io_read (some E.image_handle) (sizeof_fwu_metadata P)] ++ mid ++
        [Event.io_close (some E.image_handle), Event.io_dev_close (some E.dev_handle)] ∧
      ∀ e ∈ mid, e = Event.sanity_check ∨ e = Event.crc_check ∨ ∃ w, e = Event.WARN w := by
  rw [load_of_opened P E g part_name ho]
  simp only []
  split
  · split
    · exact ⟨[Event.WARN (Warning.short_read (read_count P E g) (sizeof_fwu_metadata P))],
        rfl, by simp⟩
    · exact ⟨[Event.WARN (Warning.read_failed E.io_read)], rfl, by simp⟩
  · unfold load_validate
    simp only []
    split
    · exact ⟨[Event.sanity_check, Event.WARN Warning.sanity_check_failed], rfl, by simp⟩
    · split
      · exact ⟨[Event.sanity_check, Event.crc_check, Event.WARN Warning.crc_check_failed],
          rfl, by simp⟩
      · exact ⟨[Event.sanity_check, Event.crc_check], rfl, by simp⟩

/-- The trace of a run that stopped at one of the three opening calls: one of
the three early exits, none of which goes through the `exit` label. -/
theorem load_trace_of_not_opened (P : Platform) (E : Env) (g : List Nat)
    (part_name : String) (h : ¬ opened E part_name) :
    (arm_load_fwu_metadata P E g part_name).trace =
        [Event.arm_set_image_source part_name,
          Event.WARN (Warning.set_reference (E.arm_set_image_source part_name))] ∨
    (arm_load_fwu_metadata P E g part_name).trace =
        [Event.arm_set_image_source part_name, Event.plat_get_image_source,
          Event.WARN (Warning.obtain_reference E.plat_get_image_source)] ∨
    (arm_load_fwu_metadata P E g part_name).trace =
        [Event.arm_set_image_source part_name, Event.plat_get_image_source,
          Event.io_open (some E.dev_handle) (some E.image_spec),
          Event.WARN (Warning.load_image E.io_open)] := by
  obtain ⟨e1, e2, e3⟩ := load_of_open_failure P E g part_name
  by_cases h1 : E.arm_set_image_source part_name = 0
  · by_cases h2 : E.plat_get_image_source = 0
    · by_cases h3 : E.io_open = 0
      · exact absurd ⟨h1, h2, h3⟩ h
      · exact Or.inr (Or.inr (e3 h1 h2 h3).2)
    · exact Or.inr (Or.inl (e2 h1 h2).2)
  · exact Or.inl (e1 h1).2

/-- A run that got past `io_open` makes exactly the two close calls of the
`exit` label, each on the handle it acquired. -/
theorem closes_of_opened (P : Platform) (E : Env) (g : List Nat) (part_name : String)
    (ho : opened E part_name) :
    closes (arm_load_fwu_metadata P E g part_name).trace =
      [Event.io_close (some E.image_handle), Event.io_dev_close (some E.dev_handle)] := by
  obtain ⟨mid, htr, hmid⟩ := load_trace_of_opened P E g part_name ho
  rw [htr]
  have hm : closes mid = [] := by
    unfold closes
    rw [List.filter_eq_nil_iff]
    intro e he
    rcases hmid e he with h | h | ⟨w, h⟩ <;> simp [h]
  unfold closes at hm ⊢
  rw [List.filter_append, List.filter_append, hm]
  rfl

/-- A run that stopped at one of the three opening calls makes no close call. -/
theorem closes_of_not_opened (P : Platform) (E : Env) (g : List Nat) (part_name : String)
    (h : ¬ opened E part_name) :
    closes (arm_load_fwu_metadata P E g part_name).trace = [] := by
  rcases load_trace_of_not_opened P E g part_name h with ht | ht | ht <;> rw [ht] <;> rfl

/-! ## Facts about the concrete records -/

theorem le32_put32_append (v : Nat) (t : List Nat) : le32 (put32 v ++ t) 0 = v % 2 ^ 32 := by
  simp [le32, put32]
  omega

/-- A record built by `with_crc` passes the CRC check. -/
theorem crc_check_with_crc (P : Platform) (payload : List Nat)
    (h : payload.length + sizeof_crc_32 = sizeof_fwu_metadata P) :
    arm_fwu_metadata_crc_check P (with_crc P payload) = 0 := by
  rw [crc_check_eq_zero_iff]
  have hr : crc_range P (with_crc P payload) = payload := by
    rw [crc_range_eq_drop]
    · simp [with_crc, put32, sizeof_crc_32]
    · simp [with_crc, put32, ← h, sizeof_crc_32]
  rw [hr]
  unfold crc_32 with_crc
  rw [le32_put32_append]
  exact Nat.mod_mod _ _

/-! ## CRC-32 detects any change confined to one byte -/

theorem crc32_bit_lt (c : Nat) (h : c < 2 ^ 32) : crc32_bit c < 2 ^ 32 := by
  unfold crc32_bit
  split
  · exact Nat.xor_lt_two_pow (by omega) (by norm_num)
  · omega

theorem crc32_bit_inj (x y : Nat) (hx : x < 2 ^ 32) (hy : y < 2 ^ 32)
    (h : crc32_bit x = crc32_bit y) : x = y := by
  have hbit : ∀ a : Nat, a < 2 ^ 31 → 2 ^ 31 ≤ a ^^^ 0xEDB88320 := by
    intro a ha
    apply Nat.testBit_implies_ge
    rw [Nat.testBit_xor, Nat.testBit_lt_two_pow ha]
    decide
  unfold crc32_bit at h
  split at h <;> split at h
  · have := Nat.xor_left_inj.mp h
    omega
  · have := hbit (x / 2) (by omega)
    omega
  · have := hbit (y / 2) (by omega)
    omega
  · omega

theorem crc32_bit_iterate_lt (n c : Nat) (h : c < 2 ^ 32) : crc32_bit^[n] c < 2 ^ 32 := by
  induction n generalizing c with
  | zero => exact h
  | succ n ih => exact ih _ (crc32_bit_lt c h)

theorem crc32_bit_iterate_inj (n x y : Nat) (hx : x < 2 ^ 32) (hy : y < 2 ^ 32)
    (h : crc32_bit^[n] x = crc32_bit^[n] y) : x = y := by
  induction n generalizing x y with
  | zero => exact h
  | succ n ih =>
    exact crc32_bit_inj x y hx hy (ih _ _ (crc32_bit_lt x hx) (crc32_bit_lt y hy) h)

theorem crc32_byte_lt (c b : Nat) (h : c < 2 ^ 32) : crc32_byte c b < 2 ^ 32 := by
  unfold crc32_byte
  exact crc32_bit_iterate_lt 8 _ (Nat.xor_lt_two_pow h (by omega))

theorem crc32_byte_inj_state (c1 c2 b : Nat) (h1 : c1 < 2 ^ 32) (h2 : c2 < 2 ^ 32)
    (h : crc32_byte c1 b = crc32_byte c2 b) : c1 = c2 := by
  unfold crc32_byte at h
  have := crc32_bit_iterate_inj 8 _ _ (Nat.xor_lt_two_pow h1 (by omega))
    (Nat.xor_lt_two_pow h2 (by omega)) h
  exact Nat.xor_left_inj.mp this

theorem crc32_byte_inj_byte (c b1 b2 : Nat) (hc : c < 2 ^ 32)
    (h : crc32_byte c b1 = crc32_byte c b2) : b1 % 256 = b2 % 256 := by
  unfold crc32_byte at h
  have := crc32_bit_iterate_inj 8 _ _ (Nat.xor_lt_two_pow hc (by omega))
    (Nat.xor_lt_two_pow hc (by omega)) h
  exact Nat.xor_right_inj.mp this

theorem foldl_crc32_byte_lt (buf : List Nat) (c : Nat) (h : c < 2 ^ 32) :
    buf.foldl crc32_byte c < 2 ^ 32 := by
  induction buf generalizing c with
  | nil => exact h
  | cons b t ih => exact ih _ (crc32_byte_lt c b h)

theorem foldl_crc32_byte_inj (buf : List Nat) (c1 c2 : Nat) (h1 : c1 < 2 ^ 32)
    (h2 : c2 < 2 ^ 32) (h : buf.foldl crc32_byte c1 = buf.foldl crc32_byte c2) : c1 = c2 := by
  induction buf generalizing c1 c2 with
  | nil => exact h
  | cons b t ih =>
    exact crc32_byte_inj_state c1 c2 b h1 h2
      (ih _ _ (crc32_byte_lt c1 b h1) (crc32_byte_lt c2 b h2) h)

theorem foldl_crc32_byte_set (buf : List Nat) (j v c : Nat) (hc : c < 2 ^ 32)
    (hj : j < buf.length) (hv : v % 256 ≠ buf.getD j 0 % 256) :
    (buf.set j v).foldl crc32_byte c ≠ buf.foldl crc32_byte c := by
  induction buf generalizing j c with
  | nil => simp at hj
  | cons b t ih =>
    cases j with
    | zero =>
      intro h
      simp only [List.set_cons_zero, List.foldl_cons] at h
      have h2 := foldl_crc32_byte_inj t _ _ (crc32_byte_lt c v hc) (crc32_byte_lt c b hc) h
      exact hv (crc32_byte_inj_byte c v b hc h2)
    | succ j =>
      simp only [List.set_cons_succ, List.foldl_cons]
      exact ih j _ (crc32_byte_lt c b hc) (by simpa using hj) (by simpa using hv)

theorem crc32_lt (crc : Nat) (buf : List Nat) : crc32 crc buf < 2 ^ 32 := by
  unfold crc32
  exact Nat.xor_lt_two_pow (foldl_crc32_byte_lt buf _
    (Nat.xor_lt_two_pow (Nat.mod_lt _ (by norm_num)) (by norm_num))) (by norm_num)

/-- CRC-32 tells apart two buffers that differ in one byte. -/
theorem crc32_set_ne (crc : Nat) (buf : List Nat) (j v : Nat) (hj : j < buf.length)
    (hv : v % 256 ≠ buf.getD j 0 % 256) :
    crc32 crc (buf.set j v) % 2 ^ 32 ≠ crc32 crc buf % 2 ^ 32 := by
  rw [Nat.mod_eq_of_lt (crc32_lt _ _), Nat.mod_eq_of_lt (crc32_lt _ _)]
  unfold crc32
  intro h
  exact foldl_crc32_byte_set buf j v _
    (Nat.xor_lt_two_pow (Nat.mod_lt _ (by norm_num)) (by norm_num)) hj hv
    (Nat.xor_left_inj.mp h)

theorem flip_byte_ne (b i : Nat) (hi : i < 8) : (b ^^^ 2 ^ i) % 256 ≠ b % 256 := by
  intro h
  have h1 := congrArg (fun n => Nat.testBit n i) h
  simp only [show (256 : Nat) = 2 ^ 8 from rfl, Nat.testBit_mod_two_pow, hi, decide_True,
    Bool.true_and, Nat.testBit_xor, Nat.testBit_two_pow_self] at h1
  cases hb : b.testBit i <;> simp [hb] at h1

/-! ## Flipping one bit of a record -/

theorem length_flip_bit (g : List Nat) (k : Nat) : (flip_bit g k).length = g.length := by
  unfold flip_bit
  exact List.length_set _ _ _

/-- A word of the record is not affected by a store outside its four bytes. -/
theorem le32_set_of_outside (g : List Nat) (i v off : Nat) (h : i < off ∨ off + 4 ≤ i) :
    le32 (g.set i v) off = le32 g off := by
  unfold le32
  simp only [List.getD_eq_getElem?_getD]
  rw [List.getElem?_set_ne (by omega), List.getElem?_set_ne (by omega),
    List.getElem?_set_ne (by omega), List.getElem?_set_ne (by omega)]

/-- A flip outside the checksum field leaves the stored checksum as it was. -/
theorem crc_32_flip_bit (g : List Nat) (k : Nat) (hk : 8 * sizeof_crc_32 ≤ k) :
    crc_32 (flip_bit g k) = crc_32 g := by
  unfold crc_32 flip_bit
  unfold sizeof_crc_32 at hk
  exact le32_set_of_outside g _ _ 0 (by omega)

/-- A flip outside the checksum field is a one-byte store into the range that
is checksummed. -/
theorem drop_flip_bit (g : List Nat) (k : Nat) (hk : 8 * sizeof_crc_32 ≤ k) :
    (flip_bit g k).drop sizeof_crc_32 =
      (g.drop sizeof_crc_32).set (k / 8 - sizeof_crc_32) (g.getD (k / 8) 0 ^^^ 2 ^ (k % 8)) := by
  unfold flip_bit
  unfold sizeof_crc_32 at *
  rw [List.drop_set, if_neg (by omega)]

/-- CRC-32 tells a record from the same record with one bit outside the checksum
field flipped. -/
theorem crc32_flip_bit_ne (g : List Nat) (k : Nat) (hk : 8 * sizeof_crc_32 ≤ k)
    (hk2 : k < 8 * g.length) :
    crc32 0 ((flip_bit g k).drop sizeof_crc_32) % 2 ^ 32 ≠
      crc32 0 (g.drop sizeof_crc_32) % 2 ^ 32 := by
  rw [drop_flip_bit g k hk]
  unfold sizeof_crc_32 at *
  apply crc32_set_ne
  · rw [List.length_drop]; omega
  · have hget : (List.drop 4 g).getD (k / 8 - 4) 0 = g.getD (k / 8) 0 := by
      simp only [List.getD_eq_getElem?_getD, List.getElem?_drop]
      rw [show 4 + (k / 8 - 4) = k / 8 by omega]
    rw [hget]
    exact flip_byte_ne _ _ (Nat.mod_lt _ (by norm_num))

/-- A flip outside the two index fields leaves the sanity check as it was. -/
theorem sanity_check_flip_bit (P : Platform) (g : List Nat) (k : Nat)
    (hk : k < 64 ∨ 128 ≤ k) :
    arm_fwu_metadata_sanity_check P (flip_bit g k) = arm_fwu_metadata_sanity_check P g := by
  unfold arm_fwu_metadata_sanity_check active_index previous_active_index flip_bit
  rw [le32_set_of_outside g _ _ 8 (by omega), le32_set_of_outside g _ _ 12 (by omega)]

/-! ## The zero-initialised record and whole sub-objects -/

/-- A word read from an object whose bytes are all zero is zero. -/
theorem le32_of_all_zero (b : List Nat) (h : ∀ x ∈ b, x = 0) (off : Nat) : le32 b off = 0 := by
  have hz : ∀ n, b.getD n 0 = 0 := by
    intro n
    rw [List.getD_eq_getElem?_getD]
    cases hn : b[n]? with
    | none => rfl
    | some x => exact h x (List.getElem?_mem hn)
  unfold le32
  rw [hz, hz, hz, hz]

/-- Every byte of the zero-initialised static is zero. -/
theorem mem_g_fwu_metadata_init (P : Platform) : ∀ x ∈ g_fwu_metadata_init P, x = 0 := by
  intro x hx
  exact List.eq_of_mem_replicate hx

/-- The zero-initialised record has `accepted == 0` wherever the two indices
are inside their arrays. -/
theorem accepted_at_init (P : Platform) (i b : Nat) (hi : i < P.NR_OF_IMAGES_IN_FW_BANK)
    (hb : b < P.NR_OF_FW_BANKS) : accepted_at P (g_fwu_metadata_init P) i b = some 0 := by
  simp only [accepted_at, img_entry, hi, if_true, img_bank_info, hb, accepted, Option.some.injEq]
  apply le32_of_all_zero
  intro x hx
  exact mem_g_fwu_metadata_init P x
    (List.mem_of_mem_drop (List.mem_of_mem_take (List.mem_of_mem_drop (List.mem_of_mem_take hx))))

/-- After a complete read the buffer holds at least a whole record. -/
theorem length_read_buffer_of_full (P : Platform) (E : Env) (g : List Nat)
    (hc : read_count P E g = sizeof_fwu_metadata P) :
    sizeof_fwu_metadata P ≤ (read_buffer P E g).length := by
  unfold read_count io_read at hc
  unfold read_buffer io_read
  simp only [List.length_append] at hc ⊢
  omega

/-- In an object holding a whole record, the sub-objects reached through
in-range indices are whole too. -/
theorem sub_objects_of_lt (P : Platform) (c : List Nat) (i b : Nat)
    (hlen : sizeof_fwu_metadata P ≤ c.length)
    (hi : i < P.NR_OF_IMAGES_IN_FW_BANK) (hb : b < P.NR_OF_FW_BANKS) :
    ∃ entry img_info,
      img_entry P c i = some entry ∧ img_bank_info P entry b = some img_info ∧
      entry.length = sizeof_image_entry P ∧ img_info.length = sizeof_image_bank_info := by
  have hmul : i * sizeof_image_entry P + sizeof_image_entry P ≤
      P.NR_OF_IMAGES_IN_FW_BANK * sizeof_image_entry P := by
    have := Nat.mul_le_mul_right (sizeof_image_entry P) (Nat.succ_le_of_lt hi)
    rw [Nat.succ_mul] at this
    exact this
  have he : ((c.drop (offsetof_img_entry + i * sizeof_image_entry P)).take
      (sizeof_image_entry P)).length = sizeof_image_entry P := by
    rw [List.length_take, List.length_drop]
    unfold sizeof_fwu_metadata at hlen
    omega
  refine ⟨(c.drop (offsetof_img_entry + i * sizeof_image_entry P)).take (sizeof_image_entry P),
    (((c.drop (offsetof_img_entry + i * sizeof_image_entry P)).take
      (sizeof_image_entry P)).drop (offsetof_img_bank_info + b * sizeof_image_bank_info)).take
      sizeof_image_bank_info,
    by simp only [img_entry, hi, if_true], by simp only [img_bank_info, hb, if_true], he, ?_⟩
  rw [List.length_take, List.length_drop, he]
  unfold sizeof_image_entry sizeof_image_bank_info offsetof_img_bank_info
  omega

/-! ## Properties of the loader and the queries -/

/-- C1 (as amended): when the storage calls succeed and `io_read` delivers a
whole record that fails the sanity check or the CRC check, the call returns -1
and the cached record afterwards is the record just read, not the one cached
before: `io_read` stores straight into `g_fwu_metadata`. Both queries then
answer from the rejected record, and the cache is as before only when the
rejected record has the same bytes. -/
theorem failed_validation_leaves_candidate (P : Platform) (E : Env) (g : List Nat)
    (part_name : String)
    (hg : g.length = sizeof_fwu_metadata P)
    (hset : E.arm_set_image_source part_name = 0) (hget : E.plat_get_image_source = 0)
    (hopen : E.io_open = 0) (hread : E.io_read = 0)
    (hlen : E.data.length = sizeof_fwu_metadata P)
    (hbad : arm_fwu_metadata_sanity_check P E.data ≠ 0 ∨
      arm_fwu_metadata_crc_check P E.data ≠ 0) :
    (arm_load_fwu_metadata P E g part_name).result = -1 ∧
    (arm_load_fwu_metadata P E g part_name).g_fwu_metadata = E.data ∧
    arm_get_fw_bank_active_idx (arm_load_fwu_metadata P E g part_name).g_fwu_metadata =
      active_index E.data ∧
    arm_is_trial_run_state P (arm_load_fwu_metadata P E g part_name).g_fwu_metadata =
      arm_is_trial_run_state P E.data ∧
    ((arm_load_fwu_metadata P E g part_name).g_fwu_metadata = g ↔ E.data = g) := by
  obtain ⟨hres, hbuf⟩ :=
    load_of_invalid P E g part_name hg ⟨hset, hget, hopen⟩ hread hlen hbad
  refine ⟨hres, hbuf, ?_, ?_, ?_⟩
  · rw [hbuf]; rfl
  · rw [hbuf]
  · rw [hbuf]

set_option maxRecDepth 8000 in
/-- C1 as amended, on `plat_2_3`: `rec_bad_index` read over the cached
`rec_accepted`. -/
theorem failed_validation_leaves_candidate_witness :
    (arm_load_fwu_metadata plat_2_3 (env_ok rec_bad_index) rec_accepted "fwu").result = -1 ∧
    (arm_load_fwu_metadata plat_2_3 (env_ok rec_bad_index) rec_accepted
      "fwu").g_fwu_metadata = rec_bad_index :=
  ⟨(failed_validation_leaves_candidate plat_2_3 (env_ok rec_bad_index) rec_accepted "fwu"
      (by decide) rfl rfl rfl rfl (by decide) (Or.inl (by decide))).1,
    (failed_validation_leaves_candidate plat_2_3 (env_ok rec_bad_index) rec_accepted "fwu"
      (by decide) rfl rfl rfl rfl (by decide) (Or.inl (by decide))).2.1⟩

set_option maxRecDepth 8000 in
/-- C1 fails as stated. On `plat_2_3` a first call adopts `rec_accepted`
(active index 0). A second call reads `rec_bad_index` in full; it is rejected
by the sanity check with -1, yet the cached record is no longer `rec_accepted`
and `arm_get_fw_bank_active_idx` returns the rejected record's 2. -/
theorem failed_validation_keeps_cache_counterexample :
    (arm_load_fwu_metadata plat_2_3 (env_ok rec_accepted) (g_fwu_metadata_init plat_2_3)
      "fwu").result = 0 ∧
    (arm_load_fwu_metadata plat_2_3 (env_ok rec_accepted) (g_fwu_metadata_init plat_2_3)
      "fwu").g_fwu_metadata = rec_accepted ∧
    (env_ok rec_bad_index).io_read = 0 ∧
    read_count plat_2_3 (env_ok rec_bad_index) rec_accepted = sizeof_fwu_metadata plat_2_3 ∧
    arm_fwu_metadata_sanity_check plat_2_3
      (read_buffer plat_2_3 (env_ok rec_bad_index) rec_accepted) = -1 ∧
    (arm_load_fwu_metadata plat_2_3 (env_ok rec_bad_index) rec_accepted "fwu").result = -1 ∧
    (arm_load_fwu_metadata plat_2_3 (env_ok rec_bad_index) rec_accepted
      "fwu").g_fwu_metadata ≠ rec_accepted ∧
    arm_get_fw_bank_active_idx rec_accepted = 0 ∧
    arm_get_fw_bank_active_idx (arm_load_fwu_metadata plat_2_3 (env_ok rec_bad_index)
      rec_accepted "fwu").g_fwu_metadata = 2 := by
  have hfirst := load_of_valid plat_2_3 (env_ok rec_accepted) (g_fwu_metadata_init plat_2_3)
    "fwu" (by decide) ⟨rfl, rfl, rfl⟩ rfl (by decide) (by decide)
    (crc_check_with_crc plat_2_3 _ (by decide))
  have hfull := read_buffer_of_full plat_2_3 (env_ok rec_bad_index) rec_accepted
    (by decide) (by decide)
  have hsecond := load_of_invalid plat_2_3 (env_ok rec_bad_index) rec_accepted "fwu"
    (by decide) ⟨rfl, rfl, rfl⟩ rfl (by decide) (Or.inl (by decide))
  have hidx : active_index rec_bad_index = 2 := by decide
  refine ⟨hfirst.1, hfirst.2, rfl, hfull.2, ?_, hsecond.1, ?_, by decide, ?_⟩
  · rw [hfull.1]; decide
  · rw [hsecond.2]
    intro heq
    have h2 : active_index rec_bad_index = active_index rec_accepted :=
      congrArg active_index heq
    rw [hidx] at h2
    revert h2
    decide
  · rw [hsecond.2]
    exact hidx

/-- C2: `arm_load_fwu_metadata` returns 0 if and only if `arm_set_image_source`,
`plat_get_image_source`, `io_open` and `io_read` all return 0, `io_read` reports
exactly `sizeof(struct fwu_metadata)` bytes, and the record read passes both
checks: `active_index < NR_OF_FW_BANKS`, `previous_active_index <
NR_OF_FW_BANKS`, and the stored `crc_32` equals the checksum of the range
`crc_range` of the record (the rest of the record). A record failing either
check never yields 0. -/
theorem arm_load_fwu_metadata_eq_zero_iff (P : Platform) (E : Env) (g : List Nat)
    (part_name : String) :
    (arm_load_fwu_metadata P E g part_name).result = 0 ↔
      E.arm_set_image_source part_name = 0 ∧ E.plat_get_image_source = 0 ∧
      E.io_open = 0 ∧ E.io_read = 0 ∧
      read_count P E g = sizeof_fwu_metadata P ∧
      active_index (read_buffer P E g) < P.NR_OF_FW_BANKS ∧
      previous_active_index (read_buffer P E g) < P.NR_OF_FW_BANKS ∧
      crc_32 (read_buffer P E g) =
        P.hw_crc32 0 (crc_range P (read_buffer P E g)) % 2 ^ 32 := by
  rw [load_result_eq_zero, sanity_check_eq_zero_iff, crc_check_eq_zero_iff]
  unfold opened
  tauto

/-- C3: with `active_index < NR_OF_FW_BANKS`, `arm_is_trial_run_state` returns
true exactly when some image entry `i < NR_OF_IMAGES_IN_FW_BANK` has
`img_entry[i].img_bank_info[active_index].accepted == 0`, and false exactly when
every image entry has a non-zero `accepted` word for the active bank. Scanning
the entries in any other order gives the same result, and so does any record
that agrees on the active index and on the `accepted` words of the active
bank, whatever its other banks hold. -/
theorem arm_is_trial_run_state_iff (P : Platform) (g : List Nat)
    (h : active_index g < P.NR_OF_FW_BANKS) :
    (arm_is_trial_run_state P g = some true ↔
      ∃ i, i < P.NR_OF_IMAGES_IN_FW_BANK ∧ accepted_at P g i (active_index g) = some 0) ∧
    (arm_is_trial_run_state P g = some false ↔
      ∀ i, i < P.NR_OF_IMAGES_IN_FW_BANK →
        ∃ v, accepted_at P g i (active_index g) = some v ∧ v ≠ 0) ∧
    (∀ order : List Nat, order.Perm (List.range P.NR_OF_IMAGES_IN_FW_BANK) →
      trial_run_scan P g order = arm_is_trial_run_state P g) ∧
    (∀ g2 : List Nat, active_index g2 = active_index g →
      (∀ i, i < P.NR_OF_IMAGES_IN_FW_BANK →
        accepted_at P g2 i (active_index g) = accepted_at P g i (active_index g)) →
      arm_is_trial_run_state P g2 = arm_is_trial_run_state P g) := by
  refine ⟨?_, ?_, ?_, ?_⟩
  · rw [trial_run_state_eq_any P g h]
    simp only [Option.some.injEq, List.any_eq_true, List.mem_range, beq_iff_eq]
  · rw [trial_run_state_eq_any P g h]
    simp only [Option.some.injEq, List.any_eq_false, List.mem_range, beq_iff_eq]
    constructor
    · intro hall i hi
      obtain ⟨v, hv⟩ := accepted_at_of_lt P g i (active_index g) hi h
      refine ⟨v, hv, ?_⟩
      intro hv0
      exact hall i hi (by rw [hv, hv0])
    · intro hall i hi h0
      obtain ⟨v, hv, hne⟩ := hall i hi
      rw [hv] at h0
      exact hne (Option.some.inj h0)
  · intro order hperm
    have ho : ∀ i ∈ order, i < P.NR_OF_IMAGES_IN_FW_BANK :=
      fun i hi => List.mem_range.mp (hperm.mem_iff.mp hi)
    rw [trial_run_scan_eq_any P g h order ho, trial_run_state_eq_any P g h]
    congr 1
    rw [List.any_eq, List.any_eq]
    congr 1
    apply propext
    constructor
    · intro ⟨x, hx, hp⟩; exact ⟨x, hperm.mem_iff.mp hx, hp⟩
    · intro ⟨x, hx, hp⟩; exact ⟨x, hperm.mem_iff.mpr hx, hp⟩
  · intro g2 ha hacc
    rw [trial_run_state_eq_any P g h, trial_run_state_eq_any P g2 (ha ▸ h), ha]
    congr 1
    rw [List.any_eq, List.any_eq]
    congr 1
    apply propext
    constructor
    · intro ⟨x, hx, hp⟩
      exact ⟨x, hx, by rw [← hacc x (List.mem_range.mp hx)]; exact hp⟩
    · intro ⟨x, hx, hp⟩
      exact ⟨x, hx, by rw [hacc x (List.mem_range.mp hx)]; exact hp⟩

set_option maxRecDepth 8000 in
/-- The scenario of C3 on two banks and three images with bank 0 active: all
three images accepted gives false, exactly one of them not accepted gives
true. -/
theorem arm_is_trial_run_state_iff_witness :
    active_index rec_trial < plat_2_3.NR_OF_FW_BANKS ∧
    (arm_is_trial_run_state plat_2_3 rec_trial = some true ↔
      ∃ i, i < plat_2_3.NR_OF_IMAGES_IN_FW_BANK ∧
        accepted_at plat_2_3 rec_trial i (active_index rec_trial) = some 0) ∧
    arm_is_trial_run_state plat_2_3 rec_trial = some true ∧
    accepted_at plat_2_3 rec_trial 1 0 = some 0 ∧
    arm_is_trial_run_state plat_2_3 rec_accepted = some false ∧
    accepted_at plat_2_3 rec_accepted 0 0 = some 1 ∧
    accepted_at plat_2_3 rec_accepted 1 0 = some 1 ∧
    accepted_at plat_2_3 rec_accepted 2 0 = some 1 :=
  ⟨by decide, (arm_is_trial_run_state_iff plat_2_3 rec_trial (by decide)).1,
    by decide, by decide, by decide, by decide, by decide, by decide⟩

/-- C4: `arm_fwu_metadata_sanity_check` returns 0 if and only if
`active_index < NR_OF_FW_BANKS` and `previous_active_index < NR_OF_FW_BANKS`,
and -1 otherwise; so a run whose storage calls succeed and whose read is
complete, on a record with `active_index >= NR_OF_FW_BANKS` or
`previous_active_index >= NR_OF_FW_BANKS`, returns -1 through the sanity-check
exit (the sanity diagnostic is logged and the CRC check is never reached),
whatever the checksum of the record. -/
theorem sanity_check_rejects_out_of_range (P : Platform) (E : Env) (g r : List Nat)
    (part_name : String) :
    (arm_fwu_metadata_sanity_check P r = 0 ↔
      active_index r < P.NR_OF_FW_BANKS ∧ previous_active_index r < P.NR_OF_FW_BANKS) ∧
    (arm_fwu_metadata_sanity_check P r ≠ 0 → arm_fwu_metadata_sanity_check P r = -1) ∧
    (E.arm_set_image_source part_name = 0 → E.plat_get_image_source = 0 → E.io_open = 0 →
      E.io_read = 0 → read_count P E g = sizeof_fwu_metadata P →
      (P.NR_OF_FW_BANKS ≤ active_index (read_buffer P E g) ∨
        P.NR_OF_FW_BANKS ≤ previous_active_index (read_buffer P E g)) →
      (arm_load_fwu_metadata P E g part_name).result = -1 ∧
      (arm_load_fwu_metadata P E g part_name).trace =
        [Event.arm_set_image_source part_name, Event.plat_get_image_source,
          Event.io_open (some E.dev_handle) (some E.image_spec),
          Event.io_read (some E.image_handle) (sizeof_fwu_metadata P),
          Event.sanity_check, Event.WARN Warning.sanity_check_failed,
          Event.io_close (some E.image_handle), Event.io_dev_close (some E.dev_handle)]) := by
  refine ⟨sanity_check_eq_zero_iff P r, ?_, ?_⟩
  · intro hne
    rcases sanity_check_cases P r with h0 | h0
    · exact absurd h0 hne
    · exact h0
  · intro h1 h2 h3 hr hc hbad
    have ho : opened E part_name := ⟨h1, h2, h3⟩
    have hs : arm_fwu_metadata_sanity_check P (read_buffer P E g) ≠ 0 := by
      rw [ne_eq, sanity_check_eq_zero_iff]
      omega
    exact ⟨load_result_of_sanity_failure P E g part_name ho hr hc hs,
      load_trace_of_sanity_failure P E g part_name ho hr hc hs⟩

set_option maxRecDepth 8000 in
/-- C4 on a record of `plat_2_3` whose `active_index` is `NR_OF_FW_BANKS` and
whose checksum is correct: the run still fails in the sanity check. -/
theorem sanity_check_rejects_out_of_range_witness :
    arm_fwu_metadata_crc_check plat_2_3 rec_bad_index = 0 ∧
    active_index rec_bad_index = plat_2_3.NR_OF_FW_BANKS ∧
    read_buffer plat_2_3 (env_ok rec_bad_index) (g_fwu_metadata_init plat_2_3) =
      rec_bad_index ∧
    (arm_load_fwu_metadata plat_2_3 (env_ok rec_bad_index) (g_fwu_metadata_init plat_2_3)
      "fwu").result = -1 ∧
    (arm_load_fwu_metadata plat_2_3 (env_ok rec_bad_index) (g_fwu_metadata_init plat_2_3)
      "fwu").trace =
      [Event.arm_set_image_source "fwu", Event.plat_get_image_source,
        Event.io_open (some 1) (some 2), Event.io_read (some 3) 256,
        Event.sanity_check, Event.WARN Warning.sanity_check_failed,
        Event.io_close (some 3), Event.io_dev_close (some 1)] :=
  ⟨crc_check_with_crc plat_2_3 _ (by decide), by decide,
    (read_buffer_of_full plat_2_3 (env_ok rec_bad_index) _ (by decide) (by decide)).1,
    (sanity_check_rejects_out_of_range plat_2_3 (env_ok rec_bad_index)
      (g_fwu_metadata_init plat_2_3) rec_bad_index "fwu").2.2 rfl rfl rfl rfl (by decide)
      (Or.inl (by decide))⟩

/-- C5: on a record object, `arm_fwu_metadata_crc_check` returns 0 if and only
if the stored `crc_32` equals `hw_crc32` started from 0 over the bytes that
follow the `crc_32` field, and -1 otherwise. The range checksummed is bytes
`sizeof(crc_32) .. sizeof(struct fwu_metadata) - 1` in their order: together
with the four bytes of the checksum field in front it is the whole record, its
`k`-th byte is byte `sizeof(crc_32) + k` of the record, and neither the range
nor what `hw_crc32` makes of it changes when the bytes of the checksum field
are replaced. -/
theorem crc_check_covers_rest_of_record (P : Platform) (g : List Nat)
    (hlen : g.length = sizeof_fwu_metadata P) :
    (arm_fwu_metadata_crc_check P g = 0 ↔
      crc_32 g = P.hw_crc32 0 (g.drop sizeof_crc_32) % 2 ^ 32) ∧
    (arm_fwu_metadata_crc_check P g ≠ 0 → arm_fwu_metadata_crc_check P g = -1) ∧
    crc_range P g = g.drop sizeof_crc_32 ∧
    g = g.take sizeof_crc_32 ++ crc_range P g ∧
    (crc_range P g).length + sizeof_crc_32 = sizeof_fwu_metadata P ∧
    (∀ k, k + sizeof_crc_32 < sizeof_fwu_metadata P →
      (crc_range P g)[k]? = g[sizeof_crc_32 + k]?) ∧
    crc_32 g = le32 (g.take sizeof_crc_32) 0 ∧
    (∀ c : List Nat, c.length = sizeof_crc_32 →
      crc_range P (c ++ g.drop sizeof_crc_32) = crc_range P g) := by
  have hge := sizeof_fwu_metadata_ge P
  have hr := crc_range_eq_drop P g hlen
  refine ⟨?_, ?_, hr, ?_, ?_, ?_, ?_, ?_⟩
  · rw [crc_check_eq_zero_iff, hr]
  · intro hne
    rcases crc_check_cases P g with h0 | h0
    · exact absurd h0 hne
    · exact h0
  · rw [hr]; exact (List.take_append_drop _ _).symm
  · rw [hr, List.length_drop, hlen]
    unfold sizeof_crc_32
    omega
  · intro k _
    rw [hr, List.getElem?_drop]
  · unfold crc_32 le32 sizeof_crc_32
    simp [List.getD_eq_getElem?_getD, List.getElem?_take]
  · intro c hc
    rw [hr, crc_range_eq_drop]
    · rw [List.drop_append_of_le_length (le_of_eq hc.symm), ← hc, List.drop_length]
      simp
    · rw [List.length_append, List.length_drop, hc, hlen]
      unfold sizeof_crc_32
      omega

set_option maxRecDepth 8000 in
/-- C5 on the record `rec_accepted` of `plat_2_3`. -/
theorem crc_check_covers_rest_of_record_witness :
    rec_accepted.length = sizeof_fwu_metadata plat_2_3 ∧
    arm_fwu_metadata_crc_check plat_2_3 rec_accepted = 0 ∧
    crc_range plat_2_3 rec_accepted = rec_accepted.drop sizeof_crc_32 ∧
    (crc_range plat_2_3 rec_accepted).length + sizeof_crc_32 = 256 :=
  ⟨by decide, crc_check_with_crc plat_2_3 _ (by decide),
    (crc_check_covers_rest_of_record plat_2_3 rec_accepted (by decide)).2.2.1,
    (crc_check_covers_rest_of_record plat_2_3 rec_accepted (by decide)).2.2.2.2.1⟩

/-- C6 (as amended): take a record with valid indices and a correct checksum,
and flip one bit outside the checksum field. When the storage calls succeed
and the flipped record is read in full, the run fails with -1 in two ways. If
the flip takes `active_index` or `previous_active_index` to `NR_OF_FW_BANKS`
or above (only a bit of these two fields can), the failure reported is the
sanity-check failure and the CRC check is not reached. Otherwise the failure
reported is the CRC mismatch, provided `hw_crc32` gives a different checksum on
the flipped bytes; CRC-32 does so at every such bit. -/
theorem bit_flip_rejected (P : Platform) (E : Env) (g r : List Nat) (part_name : String)
    (k : Nat)
    (hg : g.length = sizeof_fwu_metadata P)
    (hset : E.arm_set_image_source part_name = 0) (hget : E.plat_get_image_source = 0)
    (hopen : E.io_open = 0) (hread : E.io_read = 0)
    (hlen : r.length = sizeof_fwu_metadata P)
    (ha : active_index r < P.NR_OF_FW_BANKS)
    (hp : previous_active_index r < P.NR_OF_FW_BANKS)
    (hcrc : crc_32 r = P.hw_crc32 0 (r.drop sizeof_crc_32) % 2 ^ 32)
    (hk : 8 * sizeof_crc_32 ≤ k) (hk2 : k < 8 * sizeof_fwu_metadata P)
    (hdata : E.data = flip_bit r k) :
    (arm_fwu_metadata_sanity_check P (flip_bit r k) ≠ 0 →
      (arm_load_fwu_metadata P E g part_name).result = -1 ∧
      warnings (arm_load_fwu_metadata P E g part_name).trace =
        [Warning.sanity_check_failed] ∧
      Event.crc_check ∉ (arm_load_fwu_metadata P E g part_name).trace ∧
      64 ≤ k ∧ k < 128) ∧
    (arm_fwu_metadata_sanity_check P (flip_bit r k) = 0 →
      P.hw_crc32 0 ((flip_bit r k).drop sizeof_crc_32) % 2 ^ 32 ≠
        P.hw_crc32 0 (r.drop sizeof_crc_32) % 2 ^ 32 →
      (arm_load_fwu_metadata P E g part_name).result = -1 ∧
      warnings (arm_load_fwu_metadata P E g part_name).trace =
        [Warning.crc_check_failed]) ∧
    (P.hw_crc32 = crc32 →
      P.hw_crc32 0 ((flip_bit r k).drop sizeof_crc_32) % 2 ^ 32 ≠
        P.hw_crc32 0 (r.drop sizeof_crc_32) % 2 ^ 32) := by
  have ho : opened E part_name := ⟨hset, hget, hopen⟩
  have hflen : E.data.length = sizeof_fwu_metadata P := by
    rw [hdata, length_flip_bit, hlen]
  obtain ⟨hb, hc⟩ := read_buffer_of_full P E g hflen hg
  rw [hdata] at hb
  refine ⟨?_, ?_, ?_⟩
  · intro hs
    have hs2 : arm_fwu_metadata_sanity_check P (read_buffer P E g) ≠ 0 := by rw [hb]; exact hs
    have htr := load_trace_of_sanity_failure P E g part_name ho hread hc hs2
    refine ⟨load_result_of_sanity_failure P E g part_name ho hread hc hs2,
      by rw [htr]; rfl, by rw [htr]; simp, ?_⟩
    by_contra hout
    have hsame := sanity_check_flip_bit P r k (by omega)
    rw [hsame] at hs
    exact hs ((sanity_check_eq_zero_iff P r).mpr ⟨ha, hp⟩)
  · intro hs hdetect
    have hs2 : arm_fwu_metadata_sanity_check P (read_buffer P E g) = 0 := by rw [hb]; exact hs
    have hcrc2 : arm_fwu_metadata_crc_check P (read_buffer P E g) ≠ 0 := by
      rw [hb, ne_eq, crc_check_eq_zero_iff,
        crc_range_eq_drop P (flip_bit r k) (by rw [length_flip_bit, hlen]),
        crc_32_flip_bit r k hk, hcrc]
      exact fun h => hdetect h.symm
    exact ⟨load_result_of_crc_failure P E g part_name ho hread hc hs2 hcrc2,
      by rw [load_trace_of_crc_failure P E g part_name ho hread hc hs2 hcrc2]; rfl⟩
  · intro hP
    rw [hP]
    exact crc32_flip_bit_ne r k hk (by rw [hlen]; exact hk2)

set_option maxRecDepth 8000 in
/-- C6 as amended, on `plat_2_3`: bit 200 of `rec_accepted` (in the first image
entry) flipped; the indices stay valid and the run fails in the CRC check. -/
theorem bit_flip_rejected_witness :
    arm_fwu_metadata_sanity_check plat_2_3 (flip_bit rec_accepted 200) = 0 ∧
    (arm_load_fwu_metadata plat_2_3 (env_ok (flip_bit rec_accepted 200))
      (g_fwu_metadata_init plat_2_3) "fwu").result = -1 ∧
    warnings (arm_load_fwu_metadata plat_2_3 (env_ok (flip_bit rec_accepted 200))
      (g_fwu_metadata_init plat_2_3) "fwu").trace = [Warning.crc_check_failed] :=
  have h := bit_flip_rejected plat_2_3 (env_ok (flip_bit rec_accepted 200))
    (g_fwu_metadata_init plat_2_3) rec_accepted "fwu" 200 (by decide) rfl rfl rfl rfl
    (by decide) (by decide) (by decide)
    ((crc_check_eq_zero_iff plat_2_3 rec_accepted).mp
        (crc_check_with_crc plat_2_3 _ (by decide)) |>.trans
      (congrArg (fun b => plat_2_3.hw_crc32 0 b % 2 ^ 32)
        (crc_range_eq_drop plat_2_3 rec_accepted (by decide))))
    (by decide) (by decide) rfl
  ⟨by decide, h.2.1 (by decide) (h.2.2 rfl)⟩

set_option maxRecDepth 8000 in
/-- C6 fails as stated. `rec_accepted` has valid indices and a correct checksum;
bit 65 lies in `active_index`, outside the checksum field. With that bit
flipped `active_index` is 2, and the run fails in the sanity check: the
diagnostic is the sanity one and the CRC check is never run. -/
theorem bit_flip_reports_crc_mismatch_counterexample :
    active_index rec_accepted < plat_2_3.NR_OF_FW_BANKS ∧
    previous_active_index rec_accepted < plat_2_3.NR_OF_FW_BANKS ∧
    arm_fwu_metadata_crc_check plat_2_3 rec_accepted = 0 ∧
    8 * sizeof_crc_32 ≤ 65 ∧ 65 < 8 * sizeof_fwu_metadata plat_2_3 ∧
    active_index (flip_bit rec_accepted 65) = 2 ∧
    (arm_load_fwu_metadata plat_2_3 (env_ok (flip_bit rec_accepted 65))
      (g_fwu_metadata_init plat_2_3) "fwu").result = -1 ∧
    warnings (arm_load_fwu_metadata plat_2_3 (env_ok (flip_bit rec_accepted 65))
      (g_fwu_metadata_init plat_2_3) "fwu").trace = [Warning.sanity_check_failed] ∧
    warnings (arm_load_fwu_metadata plat_2_3 (env_ok (flip_bit rec_accepted 65))
      (g_fwu_metadata_init plat_2_3) "fwu").trace ≠ [Warning.crc_check_failed] ∧
    Event.crc_check ∉ (arm_load_fwu_metadata plat_2_3 (env_ok (flip_bit rec_accepted 65))
      (g_fwu_metadata_init plat_2_3) "fwu").trace := by
  have hfull := read_buffer_of_full plat_2_3 (env_ok (flip_bit rec_accepted 65))
    (g_fwu_metadata_init plat_2_3) (by decide) (by decide)
  have hs : arm_fwu_metadata_sanity_check plat_2_3
      (read_buffer plat_2_3 (env_ok (flip_bit rec_accepted 65))
        (g_fwu_metadata_init plat_2_3)) ≠ 0 := by
    rw [hfull.1]; decide
  have hres := load_result_of_sanity_failure plat_2_3 (env_ok (flip_bit rec_accepted 65))
    (g_fwu_metadata_init plat_2_3) "fwu" ⟨rfl, rfl, rfl⟩ rfl hfull.2 hs
  have htr := load_trace_of_sanity_failure plat_2_3 (env_ok (flip_bit rec_accepted 65))
    (g_fwu_metadata_init plat_2_3) "fwu" ⟨rfl, rfl, rfl⟩ rfl hfull.2 hs
  refine ⟨by decide, by decide, crc_check_with_crc plat_2_3 _ (by decide), by decide,
    by decide, by decide, hres, ?_, ?_, ?_⟩
  · rw [htr]; rfl
  · rw [htr]; decide
  · rw [htr]; simp

/-- C7: round trip. When the storage calls succeed and `io_read` delivers a
whole record whose `active_index` and `previous_active_index` are below
`NR_OF_FW_BANKS` and whose `crc_32` is the checksum of the rest of the record,
`arm_load_fwu_metadata` returns 0, the cached record is the record read, and
`arm_get_fw_bank_active_idx` then returns the stored `active_index`. -/
theorem arm_load_fwu_metadata_round_trip (P : Platform) (E : Env) (g : List Nat)
    (part_name : String)
    (hg : g.length = sizeof_fwu_metadata P)
    (hset : E.arm_set_image_source part_name = 0) (hget : E.plat_get_image_source = 0)
    (hopen : E.io_open = 0) (hread : E.io_read = 0)
    (hlen : E.data.length = sizeof_fwu_metadata P)
    (ha : active_index E.data < P.NR_OF_FW_BANKS)
    (hp : previous_active_index E.data < P.NR_OF_FW_BANKS)
    (hcrc : crc_32 E.data = P.hw_crc32 0 (E.data.drop sizeof_crc_32) % 2 ^ 32) :
    (arm_load_fwu_metadata P E g part_name).result = 0 ∧
    (arm_load_fwu_metadata P E g part_name).g_fwu_metadata = E.data ∧
    arm_get_fw_bank_active_idx (arm_load_fwu_metadata P E g part_name).g_fwu_metadata =
      active_index E.data := by
  have hs : arm_fwu_metadata_sanity_check P E.data = 0 :=
    (sanity_check_eq_zero_iff P E.data).mpr ⟨ha, hp⟩
  have hc : arm_fwu_metadata_crc_check P E.data = 0 := by
    rw [crc_check_eq_zero_iff, crc_range_eq_drop P E.data hlen]
    exact hcrc
  obtain ⟨h0, hbuf⟩ := load_of_valid P E g part_name hg ⟨hset, hget, hopen⟩ hread hlen hs hc
  exact ⟨h0, hbuf, by rw [hbuf]; rfl⟩

set_option maxRecDepth 8000 in
/-- C7 on `plat_2_3`: loading `rec_trial` over the zero-initialised cache
succeeds and the query returns its active index 0. -/
theorem arm_load_fwu_metadata_round_trip_witness :
    (arm_load_fwu_metadata plat_2_3 (env_ok rec_trial) (g_fwu_metadata_init plat_2_3)
      "fwu").result = 0 ∧
    (arm_load_fwu_metadata plat_2_3 (env_ok rec_trial) (g_fwu_metadata_init plat_2_3)
      "fwu").g_fwu_metadata = rec_trial ∧
    arm_get_fw_bank_active_idx (arm_load_fwu_metadata plat_2_3 (env_ok rec_trial)
      (g_fwu_metadata_init plat_2_3) "fwu").g_fwu_metadata = active_index rec_trial :=
  arm_load_fwu_metadata_round_trip plat_2_3 (env_ok rec_trial)
    (g_fwu_metadata_init plat_2_3) "fwu" (by decide) rfl rfl rfl rfl (by decide)
    (by decide) (by decide)
    ((crc_check_eq_zero_iff plat_2_3 rec_trial).mp
        (crc_check_with_crc plat_2_3 _ (by decide)) |>.trans
      (congrArg (fun b => plat_2_3.hw_crc32 0 b % 2 ^ 32)
        (crc_range_eq_drop plat_2_3 rec_trial (by decide))))

/-- C8 (as amended): the value returned by a failing `arm_load_fwu_metadata`
does not tell an I/O failure from a validation failure. A failing
`arm_set_image_source`, a short read, a sanity-check failure and a CRC failure
all return -1; a failing `plat_get_image_source`, `io_open` or `io_read`
returns that call's own non-zero value. What differs from cause to cause is
the single diagnostic logged. -/
theorem failure_cause_only_in_diagnostic (P : Platform) (E : Env) (g : List Nat)
    (part_name : String) :
    (E.arm_set_image_source part_name ≠ 0 →
      (arm_load_fwu_metadata P E g part_name).result = -1 ∧
      warnings (arm_load_fwu_metadata P E g part_name).trace =
        [Warning.set_reference (E.arm_set_image_source part_name)]) ∧
    (E.arm_set_image_source part_name = 0 → E.plat_get_image_source ≠ 0 →
      (arm_load_fwu_metadata P E g part_name).result = E.plat_get_image_source ∧
      warnings (arm_load_fwu_metadata P E g part_name).trace =
        [Warning.obtain_reference E.plat_get_image_source]) ∧
    (E.arm_set_image_source part_name = 0 → E.plat_get_image_source = 0 → E.io_open ≠ 0 →
      (arm_load_fwu_metadata P E g part_name).result = E.io_open ∧
      warnings (arm_load_fwu_metadata P E g part_name).trace =
        [Warning.load_image E.io_open]) ∧
    (opened E part_name → E.io_read ≠ 0 →
      (arm_load_fwu_metadata P E g part_name).result = E.io_read ∧
      warnings (arm_load_fwu_metadata P E g part_name).trace =
        [Warning.read_failed E.io_read]) ∧
    (opened E part_name → E.io_read = 0 → read_count P E g ≠ sizeof_fwu_metadata P →
      (arm_load_fwu_metadata P E g part_name).result = -1 ∧
      warnings (arm_load_fwu_metadata P E g part_name).trace =
        [Warning.short_read (read_count P E g) (sizeof_fwu_metadata P)]) ∧
    (opened E part_name → E.io_read = 0 → read_count P E g = sizeof_fwu_metadata P →
      arm_fwu_metadata_sanity_check P (read_buffer P E g) ≠ 0 →
      (arm_load_fwu_metadata P E g part_name).result = -1 ∧
      warnings (arm_load_fwu_metadata P E g part_name).trace =
        [Warning.sanity_check_failed]) ∧
    (opened E part_name → E.io_read = 0 → read_count P E g = sizeof_fwu_metadata P →
      arm_fwu_metadata_sanity_check P (read_buffer P E g) = 0 →
      arm_fwu_metadata_crc_check P (read_buffer P E g) ≠ 0 →
      (arm_load_fwu_metadata P E g part_name).result = -1 ∧
      warnings (arm_load_fwu_metadata P E g part_name).trace =
        [Warning.crc_check_failed]) := by
  obtain ⟨e1, e2, e3⟩ := load_of_open_failure P E g part_name
  refine ⟨?_, ?_, ?_, ?_, ?_, ?_, ?_⟩
  · intro h1
    exact ⟨(e1 h1).1, by rw [(e1 h1).2]; rfl⟩
  · intro h1 h2
    exact ⟨(e2 h1 h2).1, by rw [(e2 h1 h2).2]; rfl⟩
  · intro h1 h2 h3
    exact ⟨(e3 h1 h2 h3).1, by rw [(e3 h1 h2 h3).2]; rfl⟩
  · intro ho hr
    obtain ⟨hres, htr⟩ := load_of_read_failure P E g part_name ho hr
    exact ⟨hres, by rw [htr]; rfl⟩
  · intro ho hr hc
    obtain ⟨hres, htr⟩ := load_of_short_read P E g part_name ho hr hc
    exact ⟨hres, by rw [htr]; rfl⟩
  · intro ho hr hc hs
    exact ⟨load_result_of_sanity_failure P E g part_name ho hr hc hs,
      by rw [load_trace_of_sanity_failure P E g part_name ho hr hc hs]; rfl⟩
  · intro ho hr hc hs hcrc
    exact ⟨load_result_of_crc_failure P E g part_name ho hr hc hs hcrc,
      by rw [load_trace_of_crc_failure P E g part_name ho hr hc hs hcrc]; rfl⟩

set_option maxRecDepth 8000 in
/-- C8 as amended, on `plat_2_3`: a short read and a sanity-check failure,
each with its own diagnostic and both returning -1. -/
theorem failure_cause_only_in_diagnostic_witness :
    ((arm_load_fwu_metadata plat_2_3 (env_ok short_data) rec_accepted "fwu").result = -1 ∧
      warnings (arm_load_fwu_metadata plat_2_3 (env_ok short_data) rec_accepted "fwu").trace =
        [Warning.short_read (read_count plat_2_3 (env_ok short_data) rec_accepted)
          (sizeof_fwu_metadata plat_2_3)]) ∧
    ((arm_load_fwu_metadata plat_2_3 (env_ok rec_bad_index) rec_accepted "fwu").result = -1 ∧
      warnings (arm_load_fwu_metadata plat_2_3 (env_ok rec_bad_index) rec_accepted
        "fwu").trace = [Warning.sanity_check_failed]) :=
  ⟨(failure_cause_only_in_diagnostic plat_2_3 (env_ok short_data) rec_accepted
      "fwu").2.2.2.2.1 ⟨rfl, rfl, rfl⟩ rfl (by decide),
    (failure_cause_only_in_diagnostic plat_2_3 (env_ok rec_bad_index) rec_accepted
      "fwu").2.2.2.2.2.1 ⟨rfl, rfl, rfl⟩ rfl
      (read_buffer_of_full plat_2_3 (env_ok rec_bad_index) rec_accepted
        (by decide) (by decide)).2
      (by rw [(read_buffer_of_full plat_2_3 (env_ok rec_bad_index) rec_accepted
        (by decide) (by decide)).1]; decide)⟩

set_option maxRecDepth 8000 in
/-- C8 fails as stated. On `plat_2_3` a short read (an I/O condition), a
sanity-check failure (a validation failure) and a hard read failure whose
`io_read` returns -1 all make `arm_load_fwu_metadata` return the same value. -/
theorem failure_values_differ_counterexample :
    warnings (arm_load_fwu_metadata plat_2_3 (env_ok short_data) rec_accepted "fwu").trace =
      [Warning.short_read 12 256] ∧
    warnings (arm_load_fwu_metadata plat_2_3 (env_ok rec_bad_index) rec_accepted
      "fwu").trace = [Warning.sanity_check_failed] ∧
    warnings (arm_load_fwu_metadata plat_2_3 env_read_fails rec_accepted "fwu").trace =
      [Warning.read_failed (-1)] ∧
    (arm_load_fwu_metadata plat_2_3 (env_ok short_data) rec_accepted "fwu").result =
      (arm_load_fwu_metadata plat_2_3 (env_ok rec_bad_index) rec_accepted "fwu").result ∧
    (arm_load_fwu_metadata plat_2_3 (env_ok short_data) rec_accepted "fwu").result =
      (arm_load_fwu_metadata plat_2_3 env_read_fails rec_accepted "fwu").result := by
  have hfull := read_buffer_of_full plat_2_3 (env_ok rec_bad_index) rec_accepted
    (by decide) (by decide)
  have hs : arm_fwu_metadata_sanity_check plat_2_3
      (read_buffer plat_2_3 (env_ok rec_bad_index) rec_accepted) ≠ 0 := by
    rw [hfull.1]; decide
  have hshort := load_of_short_read plat_2_3 (env_ok short_data) rec_accepted "fwu"
    ⟨rfl, rfl, rfl⟩ rfl (by decide)
  have hsanity := load_result_of_sanity_failure plat_2_3 (env_ok rec_bad_index) rec_accepted
    "fwu" ⟨rfl, rfl, rfl⟩ rfl hfull.2 hs
  have hsanity_tr := load_trace_of_sanity_failure plat_2_3 (env_ok rec_bad_index)
    rec_accepted "fwu" ⟨rfl, rfl, rfl⟩ rfl hfull.2 hs
  have hhard := load_of_read_failure plat_2_3 env_read_fails rec_accepted "fwu"
    ⟨rfl, rfl, rfl⟩ (by decide)
  refine ⟨?_, ?_, ?_, ?_, ?_⟩
  · rw [hshort.2]; decide
  · rw [hsanity_tr]; rfl
  · rw [hhard.2]; rfl
  · rw [hshort.1, hsanity]
  · rw [hshort.1, hhard.1]; rfl

/-- C9 (as amended): when `io_read` returns 0 but reports fewer bytes than
`sizeof(struct fwu_metadata)` (zero included), `arm_load_fwu_metadata` takes the
short-read exit: it returns -1, logs the short-read diagnostic and runs neither
the sanity nor the CRC check. The cached record afterwards is the bytes
delivered followed by the bytes of the previous cached record beyond them; it
is the previous cached record when no byte was delivered. -/
theorem short_read_overwrites_head (P : Platform) (E : Env) (g : List Nat)
    (part_name : String)
    (hset : E.arm_set_image_source part_name = 0) (hget : E.plat_get_image_source = 0)
    (hopen : E.io_open = 0) (hread : E.io_read = 0)
    (hshort : read_count P E g < sizeof_fwu_metadata P) :
    (arm_load_fwu_metadata P E g part_name).result = -1 ∧
    warnings (arm_load_fwu_metadata P E g part_name).trace =
      [Warning.short_read (read_count P E g) (sizeof_fwu_metadata P)] ∧
    Event.sanity_check ∉ (arm_load_fwu_metadata P E g part_name).trace ∧
    Event.crc_check ∉ (arm_load_fwu_metadata P E g part_name).trace ∧
    read_count P E g = E.data.length ∧
    (arm_load_fwu_metadata P E g part_name).g_fwu_metadata =
      E.data ++ g.drop E.data.length ∧
    (E.data = [] → (arm_load_fwu_metadata P E g part_name).g_fwu_metadata = g) := by
  have ho : opened E part_name := ⟨hset, hget, hopen⟩
  obtain ⟨hres, htr⟩ := load_of_short_read P E g part_name ho hread (Nat.ne_of_lt hshort)
  have hbuf := load_buffer_of_opened P E g part_name ho
  have hdl : E.data.length < sizeof_fwu_metadata P := by
    have h := hshort
    unfold read_count io_read at h
    simp only [List.length_take] at h
    omega
  have htake : E.data.take (sizeof_fwu_metadata P) = E.data :=
    List.take_of_length_le (Nat.le_of_lt hdl)
  have hcount : read_count P E g = E.data.length := by
    unfold read_count io_read
    simp only [htake]
  have hb : read_buffer P E g = E.data ++ g.drop E.data.length := by
    unfold read_buffer io_read
    simp only [htake]
  refine ⟨hres, ?_, ?_, ?_, hcount, hbuf.trans hb, ?_⟩
  · rw [htr]; rfl
  · rw [htr]; simp
  · rw [htr]; simp
  · intro hnil
    rw [hbuf, hb, hnil]
    rfl

set_option maxRecDepth 8000 in
/-- C9 as amended, on `plat_2_3`: twelve bytes delivered over the cached
`rec_accepted`. -/
theorem short_read_overwrites_head_witness :
    read_count plat_2_3 (env_ok short_data) rec_accepted = 12 ∧
    (arm_load_fwu_metadata plat_2_3 (env_ok short_data) rec_accepted "fwu").result = -1 ∧
    (arm_load_fwu_metadata plat_2_3 (env_ok short_data) rec_accepted "fwu").g_fwu_metadata =
      short_data ++ rec_accepted.drop 12 :=
  ⟨by decide,
    (short_read_overwrites_head plat_2_3 (env_ok short_data) rec_accepted "fwu"
      rfl rfl rfl rfl (by decide)).1,
    (short_read_overwrites_head plat_2_3 (env_ok short_data) rec_accepted "fwu"
      rfl rfl rfl rfl (by decide)).2.2.2.2.2.1⟩

set_option maxRecDepth 8000 in
/-- C9 fails as stated. On `plat_2_3` with `rec_accepted` cached (active index
0), `io_read` returns 0 and reports 12 of the 256 bytes; the call returns -1,
but the cached record has changed and `arm_get_fw_bank_active_idx` now returns
1, the value carried by the twelve bytes. -/
theorem short_read_keeps_cache_counterexample :
    (env_ok short_data).io_read = 0 ∧
    read_count plat_2_3 (env_ok short_data) rec_accepted = 12 ∧
    sizeof_fwu_metadata plat_2_3 = 256 ∧
    (arm_load_fwu_metadata plat_2_3 (env_ok short_data) rec_accepted "fwu").result = -1 ∧
    (arm_load_fwu_metadata plat_2_3 (env_ok short_data) rec_accepted "fwu").g_fwu_metadata ≠
      rec_accepted ∧
    arm_get_fw_bank_active_idx rec_accepted = 0 ∧
    arm_get_fw_bank_active_idx (arm_load_fwu_metadata plat_2_3 (env_ok short_data)
      rec_accepted "fwu").g_fwu_metadata = 1 := by
  have hidx : arm_get_fw_bank_active_idx (arm_load_fwu_metadata plat_2_3 (env_ok short_data)
      rec_accepted "fwu").g_fwu_metadata = 1 := by decide
  refine ⟨rfl, by decide, by decide, by decide, ?_, by decide, hidx⟩
  intro heq
  rw [heq] at hidx
  revert hidx
  decide

/-- C10, evaluated where the code departs from its header comment: when
`plat_get_image_source` fails with -2 the function returns -2, and when
`io_open` fails with -5 it returns -5, neither 0 nor -1. -/
theorem arm_load_fwu_metadata_returns_callee_error :
    (arm_load_fwu_metadata plat_2_3 env_get_fails (g_fwu_metadata_init plat_2_3)
      "fwu").result = -2 ∧
    (arm_load_fwu_metadata plat_2_3 env_open_fails (g_fwu_metadata_init plat_2_3)
      "fwu").result = -5 := by
  constructor <;> rfl

/-- C11, evaluated where the code departs from the claim. `plat_get_image_source`
returns 0 and hands out device handle 1, then `io_open` fails with -5: the
function returns -5 from the `io_open` failure branch without going through the
`exit` label, so no `io_dev_close` is made on the device handle. On the sibling
path where `io_read` fails instead, both handles are closed once. -/
theorem io_open_failure_skips_io_dev_close :
    env_open_fails.arm_set_image_source "fwu" = 0 ∧
    env_open_fails.plat_get_image_source = 0 ∧
    env_open_fails.io_open = -5 ∧
    (arm_load_fwu_metadata plat_2_3 env_open_fails (g_fwu_metadata_init plat_2_3)
      "fwu").result = -5 ∧
    (arm_load_fwu_metadata plat_2_3 env_open_fails (g_fwu_metadata_init plat_2_3)
      "fwu").trace =
      [Event.arm_set_image_source "fwu", Event.plat_get_image_source,
        Event.io_open (some 1) (some 2), Event.WARN (Warning.load_image (-5))] ∧
    closes (arm_load_fwu_metadata plat_2_3 env_open_fails (g_fwu_metadata_init plat_2_3)
      "fwu").trace = [] ∧
    closes (arm_load_fwu_metadata plat_2_3 env_read_fails (g_fwu_metadata_init plat_2_3)
      "fwu").trace = [Event.io_close (some 3), Event.io_dev_close (some 1)] :=
  ⟨rfl, rfl, rfl, rfl, rfl, rfl, rfl⟩

/-- C12: idempotence. Let the storage calls succeed in two successive runs that
read the same bytes, a whole record with valid indices and a correct checksum.
Both runs return 0, the cached record after the second run is the one after
the first, and `arm_get_fw_bank_active_idx` and `arm_is_trial_run_state` answer
the same after either. From any prior cached record the successful run leaves
exactly the bytes read in the cache. -/
theorem load_twice_same_answers (P : Platform) (E1 E2 : Env) (g : List Nat)
    (part_name : String)
    (hg : g.length = sizeof_fwu_metadata P)
    (ho1 : opened E1 part_name) (hr1 : E1.io_read = 0)
    (ho2 : opened E2 part_name) (hr2 : E2.io_read = 0)
    (hsame : E2.data = E1.data)
    (hlen : E1.data.length = sizeof_fwu_metadata P)
    (ha : active_index E1.data < P.NR_OF_FW_BANKS)
    (hp : previous_active_index E1.data < P.NR_OF_FW_BANKS)
    (hcrc : crc_32 E1.data = P.hw_crc32 0 (E1.data.drop sizeof_crc_32) % 2 ^ 32) :
    (arm_load_fwu_metadata P E1 g part_name).result = 0 ∧
    (arm_load_fwu_metadata P E2 (arm_load_fwu_metadata P E1 g part_name).g_fwu_metadata
      part_name).result = 0 ∧
    (arm_load_fwu_metadata P E2 (arm_load_fwu_metadata P E1 g part_name).g_fwu_metadata
      part_name).g_fwu_metadata = (arm_load_fwu_metadata P E1 g part_name).g_fwu_metadata ∧
    arm_get_fw_bank_active_idx
      (arm_load_fwu_metadata P E2 (arm_load_fwu_metadata P E1 g part_name).g_fwu_metadata
        part_name).g_fwu_metadata =
      arm_get_fw_bank_active_idx (arm_load_fwu_metadata P E1 g part_name).g_fwu_metadata ∧
    arm_is_trial_run_state P
      (arm_load_fwu_metadata P E2 (arm_load_fwu_metadata P E1 g part_name).g_fwu_metadata
        part_name).g_fwu_metadata =
      arm_is_trial_run_state P (arm_load_fwu_metadata P E1 g part_name).g_fwu_metadata ∧
    (∀ g2 : List Nat, g2.length = sizeof_fwu_metadata P →
      (arm_load_fwu_metadata P E1 g2 part_name).g_fwu_metadata = E1.data ∧
      (arm_load_fwu_metadata P E1 g2 part_name).result = 0) := by
  have hs : arm_fwu_metadata_sanity_check P E1.data = 0 :=
    (sanity_check_eq_zero_iff P E1.data).mpr ⟨ha, hp⟩
  have hc : arm_fwu_metadata_crc_check P E1.data = 0 := by
    rw [crc_check_eq_zero_iff, crc_range_eq_drop P E1.data hlen]
    exact hcrc
  have hany : ∀ g2 : List Nat, g2.length = sizeof_fwu_metadata P →
      (arm_load_fwu_metadata P E1 g2 part_name).g_fwu_metadata = E1.data ∧
      (arm_load_fwu_metadata P E1 g2 part_name).result = 0 := by
    intro g2 hg2
    obtain ⟨h0, hb⟩ := load_of_valid P E1 g2 part_name hg2 ho1 hr1 hlen hs hc
    exact ⟨hb, h0⟩
  obtain ⟨hb1, h1⟩ := hany g hg
  obtain ⟨h2, hb2⟩ := load_of_valid P E2 E1.data part_name hlen ho2 hr2
    (by rw [hsame]; exact hlen) (by rw [hsame]; exact hs) (by rw [hsame]; exact hc)
  rw [hb1, hb2, hsame]
  exact ⟨h1, h2, rfl, rfl, rfl, hany⟩

set_option maxRecDepth 8000 in
/-- C12 on `plat_2_3`: `rec_trial` loaded twice in succession, and loaded over a
different prior cache. -/
theorem load_twice_same_answers_witness :
    (arm_load_fwu_metadata plat_2_3 (env_ok rec_trial) (g_fwu_metadata_init plat_2_3)
      "fwu").result = 0 ∧
    (arm_load_fwu_metadata plat_2_3 (env_ok rec_trial)
      (arm_load_fwu_metadata plat_2_3 (env_ok rec_trial) (g_fwu_metadata_init plat_2_3)
        "fwu").g_fwu_metadata "fwu").result = 0 ∧
    (arm_load_fwu_metadata plat_2_3 (env_ok rec_trial) rec_accepted "fwu").g_fwu_metadata =
      rec_trial :=
  have h := load_twice_same_answers plat_2_3 (env_ok rec_trial) (env_ok rec_trial)
    (g_fwu_metadata_init plat_2_3) "fwu" (by decide) ⟨rfl, rfl, rfl⟩ rfl ⟨rfl, rfl, rfl⟩ rfl
    rfl (by decide) (by decide) (by decide)
    ((crc_check_eq_zero_iff plat_2_3 rec_trial).mp
        (crc_check_with_crc plat_2_3 _ (by decide)) |>.trans
      (congrArg (fun b => plat_2_3.hw_crc32 0 b % 2 ^ 32)
        (crc_range_eq_drop plat_2_3 rec_trial (by decide))))
  ⟨h.1, h.2.1, (h.2.2.2.2.2 rec_accepted (by decide)).1⟩

/-- C13: `arm_load_fwu_metadata` never closes a handle it did not acquire. An
`io_close` occurs in a run only if `arm_set_image_source`,
`plat_get_image_source` and `io_open` returned 0, and then on the image handle
`io_open` stored; an `io_dev_close` occurs only if `plat_get_image_source`
returned 0, and then on the device handle it stored. When one of the three
opening calls fails the run makes no close call at all. -/
theorem close_only_acquired_handles (P : Platform) (E : Env) (g : List Nat)
    (part_name : String) :
    (∀ h, Event.io_close h ∈ (arm_load_fwu_metadata P E g part_name).trace →
      E.arm_set_image_source part_name = 0 ∧ E.plat_get_image_source = 0 ∧ E.io_open = 0 ∧
      h = some E.image_handle) ∧
    (∀ h, Event.io_dev_close h ∈ (arm_load_fwu_metadata P E g part_name).trace →
      E.arm_set_image_source part_name = 0 ∧ E.plat_get_image_source = 0 ∧
      h = some E.dev_handle) ∧
    ((E.arm_set_image_source part_name ≠ 0 ∨ E.plat_get_image_source ≠ 0 ∨ E.io_open ≠ 0) →
      closes (arm_load_fwu_metadata P E g part_name).trace = []) := by
  by_cases ho : opened E part_name
  · obtain ⟨mid, htr, hmid⟩ := load_trace_of_opened P E g part_name ho
    refine ⟨?_, ?_, ?_⟩
    · intro h hmem
      rw [htr] at hmem
      simp only [List.mem_append, List.mem_cons, List.mem_singleton, List.not_mem_nil,
        reduceCtorEq, or_false, false_or, Event.io_close.injEq] at hmem
      rcases hmem with hm | hm
      · rcases hmid _ hm with h1 | h1 | ⟨w, h1⟩ <;> simp at h1
      · exact ⟨ho.1, ho.2.1, ho.2.2, hm⟩
    · intro h hmem
      rw [htr] at hmem
      simp only [List.mem_append, List.mem_cons, List.mem_singleton, List.not_mem_nil,
        reduceCtorEq, or_false, false_or, Event.io_dev_close.injEq] at hmem
      rcases hmem with hm | hm
      · rcases hmid _ hm with h1 | h1 | ⟨w, h1⟩ <;> simp at h1
      · exact ⟨ho.1, ho.2.1, hm⟩
    · intro hfail
      unfold opened at ho
      rcases hfail with hf | hf | hf
      · exact absurd ho.1 hf
      · exact absurd ho.2.1 hf
      · exact absurd ho.2.2 hf
  · refine ⟨?_, ?_, fun _ => closes_of_not_opened P E g part_name ho⟩
    · intro h hmem
      rcases load_trace_of_not_opened P E g part_name ho with ht | ht | ht <;>
        rw [ht] at hmem <;> simp at hmem
    · intro h hmem
      rcases load_trace_of_not_opened P E g part_name ho with ht | ht | ht <;>
        rw [ht] at hmem <;> simp at hmem

/-- C13 on `plat_2_3`: a run whose `io_read` fails closes image handle 3, which
`io_open` had stored; a run whose `io_open` fails closes nothing. -/
theorem close_only_acquired_handles_witness :
    Event.io_close (some 3) ∈ (arm_load_fwu_metadata plat_2_3 env_read_fails
      (g_fwu_metadata_init plat_2_3) "fwu").trace ∧
    (env_read_fails.arm_set_image_source "fwu" = 0 ∧ env_read_fails.plat_get_image_source = 0 ∧
      env_read_fails.io_open = 0 ∧ some 3 = some env_read_fails.image_handle) ∧
    env_open_fails.io_open ≠ 0 ∧
    closes (arm_load_fwu_metadata plat_2_3 env_open_fails (g_fwu_metadata_init plat_2_3)
      "fwu").trace = [] :=
  ⟨by decide,
    (close_only_acquired_handles plat_2_3 env_read_fails (g_fwu_metadata_init plat_2_3)
      "fwu").1 (some 3) (by decide),
    by decide,
    (close_only_acquired_handles plat_2_3 env_open_fails (g_fwu_metadata_init plat_2_3)
      "fwu").2.2 (Or.inr (Or.inr (by decide)))⟩

/-- C14: right after a run of `arm_load_fwu_metadata` that returns 0, the cached
record has `active_index < NR_OF_FW_BANKS`; for every `i <
NR_OF_IMAGES_IN_FW_BANK` the accesses `img_entry[i]` and
`img_bank_info[active_index]` are inside their arrays and yield whole
sub-objects, and `arm_is_trial_run_state` returns a value: its out-of-range
branch is not taken. -/
theorem trial_run_in_bounds_after_success (P : Platform) (E : Env) (g : List Nat)
    (part_name : String)
    (h0 : (arm_load_fwu_metadata P E g part_name).result = 0) :
    active_index (arm_load_fwu_metadata P E g part_name).g_fwu_metadata < P.NR_OF_FW_BANKS ∧
    (∀ i, i < P.NR_OF_IMAGES_IN_FW_BANK →
      ∃ entry img_info,
        img_entry P (arm_load_fwu_metadata P E g part_name).g_fwu_metadata i = some entry ∧
        img_bank_info P entry
          (active_index (arm_load_fwu_metadata P E g part_name).g_fwu_metadata) =
          some img_info ∧
        entry.length = sizeof_image_entry P ∧
        img_info.length = sizeof_image_bank_info) ∧
    (∃ b, arm_is_trial_run_state P (arm_load_fwu_metadata P E g part_name).g_fwu_metadata =
      some b) := by
  obtain ⟨ho, _, hc, hs, _⟩ := (load_result_eq_zero P E g part_name).mp h0
  rw [load_buffer_of_opened P E g part_name ho]
  have ha := ((sanity_check_eq_zero_iff P _).mp hs).1
  refine ⟨ha, ?_, _, trial_run_state_eq_any P _ ha⟩
  intro i hi
  exact sub_objects_of_lt P _ i _ (length_read_buffer_of_full P E g hc) hi ha

set_option maxRecDepth 8000 in
/-- C14 on `plat_2_3`: after `rec_trial` is loaded over the zero-initialised
cache. -/
theorem trial_run_in_bounds_after_success_witness :
    (arm_load_fwu_metadata plat_2_3 (env_ok rec_trial) (g_fwu_metadata_init plat_2_3)
      "fwu").result = 0 ∧
    active_index (arm_load_fwu_metadata plat_2_3 (env_ok rec_trial)
      (g_fwu_metadata_init plat_2_3) "fwu").g_fwu_metadata < plat_2_3.NR_OF_FW_BANKS ∧
    (∃ b, arm_is_trial_run_state plat_2_3 (arm_load_fwu_metadata plat_2_3 (env_ok rec_trial)
      (g_fwu_metadata_init plat_2_3) "fwu").g_fwu_metadata = some b) :=
  have h0 := (load_of_valid plat_2_3 (env_ok rec_trial) (g_fwu_metadata_init plat_2_3) "fwu"
    (by decide) ⟨rfl, rfl, rfl⟩ rfl (by decide) (by decide)
    (crc_check_with_crc plat_2_3 _ (by decide))).1
  have h := trial_run_in_bounds_after_success plat_2_3 (env_ok rec_trial)
    (g_fwu_metadata_init plat_2_3) "fwu" h0
  ⟨h0, h.1, h.2.2⟩

/-- C15: when `arm_set_image_source`, `plat_get_image_source` or `io_open`
returns non-zero, `arm_load_fwu_metadata` returns a non-zero value, calls
neither `io_read` nor either check, and leaves the cached record exactly as it
was. More generally a run without an `io_read` call leaves the cached record
as it was: only the `io_read` step writes it. -/
theorem open_failure_leaves_cache (P : Platform) (E : Env) (g : List Nat)
    (part_name : String) :
    ((E.arm_set_image_source part_name ≠ 0 ∨ E.plat_get_image_source ≠ 0 ∨ E.io_open ≠ 0) →
      (arm_load_fwu_metadata P E g part_name).result ≠ 0 ∧
      (arm_load_fwu_metadata P E g part_name).g_fwu_metadata = g ∧
      (∀ h n, Event.io_read h n ∉ (arm_load_fwu_metadata P E g part_name).trace) ∧
      Event.sanity_check ∉ (arm_load_fwu_metadata P E g part_name).trace ∧
      Event.crc_check ∉ (arm_load_fwu_metadata P E g part_name).trace) ∧
    ((∀ h n, Event.io_read h n ∉ (arm_load_fwu_metadata P E g part_name).trace) →
      (arm_load_fwu_metadata P E g part_name).g_fwu_metadata = g) := by
  have hno : ¬ opened E part_name →
      (∀ h n, Event.io_read h n ∉ (arm_load_fwu_metadata P E g part_name).trace) ∧
      Event.sanity_check ∉ (arm_load_fwu_metadata P E g part_name).trace ∧
      Event.crc_check ∉ (arm_load_fwu_metadata P E g part_name).trace := by
    intro ho
    rcases load_trace_of_not_opened P E g part_name ho with ht | ht | ht <;>
      rw [ht] <;> simp
  refine ⟨?_, ?_⟩
  · intro hfail
    have ho : ¬ opened E part_name := by
      intro ho
      unfold opened at ho
      rcases hfail with hf | hf | hf
      · exact hf ho.1
      · exact hf ho.2.1
      · exact hf ho.2.2
    obtain ⟨hres, hbuf⟩ := load_of_not_opened P E g part_name ho
    exact ⟨hres, hbuf, hno ho⟩
  · intro hnoread
    by_cases ho : opened E part_name
    · obtain ⟨mid, htr, _⟩ := load_trace_of_opened P E g part_name ho
      exact absurd (by rw [htr]; simp) (hnoread (some E.image_handle) (sizeof_fwu_metadata P))
    · exact (load_of_not_opened P E g part_name ho).2

/-- C15 on `plat_2_3`: `plat_get_image_source` fails with `rec_accepted`
cached. -/
theorem open_failure_leaves_cache_witness :
    env_get_fails.plat_get_image_source ≠ 0 ∧
    (arm_load_fwu_metadata plat_2_3 env_get_fails rec_accepted "fwu").result ≠ 0 ∧
    (arm_load_fwu_metadata plat_2_3 env_get_fails rec_accepted "fwu").g_fwu_metadata =
      rec_accepted :=
  have h := (open_failure_leaves_cache plat_2_3 env_get_fails rec_accepted "fwu").1
    (Or.inr (Or.inl (by decide)))
  ⟨by decide, h.1, h.2.1⟩

/-- C16: on the zero-initialised static `g_fwu_metadata`, before any load,
`arm_get_fw_bank_active_idx` returns 0 and, with `NR_OF_IMAGES_IN_FW_BANK >= 1`,
`arm_is_trial_run_state` returns true. The bank array `img_bank_info` is taken
to have at least one element, as a C array has, so that bank 0 exists. -/
theorem queries_on_zeroed_cache (P : Platform) (hbanks : 1 ≤ P.NR_OF_FW_BANKS) :
    arm_get_fw_bank_active_idx (g_fwu_metadata_init P) = 0 ∧
    (1 ≤ P.NR_OF_IMAGES_IN_FW_BANK →
      arm_is_trial_run_state P (g_fwu_metadata_init P) = some true) := by
  have ha : active_index (g_fwu_metadata_init P) = 0 :=
    le32_of_all_zero _ (mem_g_fwu_metadata_init P) 8
  refine ⟨ha, ?_⟩
  intro hn
  rw [trial_run_state_eq_any P _ (by rw [ha]; omega), ha]
  simp only [Option.some.injEq, List.any_eq_true, List.mem_range, beq_iff_eq]
  exact ⟨0, by omega, accepted_at_init P 0 0 (by omega) (by omega)⟩

/-- C16 on `plat_2_3`. -/
theorem queries_on_zeroed_cache_witness :
    1 ≤ plat_2_3.NR_OF_FW_BANKS ∧ 1 ≤ plat_2_3.NR_OF_IMAGES_IN_FW_BANK ∧
    arm_get_fw_bank_active_idx (g_fwu_metadata_init plat_2_3) = 0 ∧
    arm_is_trial_run_state plat_2_3 (g_fwu_metadata_init plat_2_3) = some true :=
  ⟨by decide, by decide, (queries_on_zeroed_cache plat_2_3 (by decide)).1,
    (queries_on_zeroed_cache plat_2_3 (by decide)).2 (by decide)⟩

end ArmFwuMetadata
